import Mathlib

set_option maxRecDepth 100000

/-!
Verification development for the PyQuishAI waypoint-following / aggro-combat
control loop (`Bots/aC_Scripts/PyQuishAI.py`) and its path-data utilities
(`Bots/aC_Scripts/analyze_pyquishai_paths.py`).

Coordinates are modelled as pairs of rationals (the Python source works with
`float` map coordinates).  `Utils.Distance` (library code of Py4GWCoreLib, not
part of the sources under study) is, per the spec, plain Euclidean distance;
every use in the source compares a distance against a threshold, so we embed
those comparisons exactly via squared distances, which agrees with the real
comparison for the thresholds at hand.
-/

namespace PyQuish

/-- A 2D point `(x, y)`. -/
abbrev Pt := ℚ × ℚ

/-- Squared Euclidean distance between two points. -/
def distSq (a b : Pt) : ℚ := (a.1 - b.1) * (a.1 - b.1) + (a.2 - b.2) * (a.2 - b.2)

/-- Modelled from the spec: `Utils.Distance` (Py4GWCoreLib, not under `src/`)
is Euclidean distance; `distLe a b c` encodes `Utils.Distance(a, b) <= c`,
expressed exactly on squared distances (`√x ≤ c ↔ 0 ≤ c ∧ x ≤ c²` for `x ≥ 0`). -/
def distLe (a b : Pt) (c : ℚ) : Bool := decide (0 ≤ c) && decide (distSq a b ≤ c * c)

/-- Modelled from the spec: encodes `Utils.Distance(a, b) >= c`
(`√x ≥ c ↔ c ≤ 0 ∨ c² ≤ x` for `x ≥ 0`). -/
def distGe (a b : Pt) (c : ℚ) : Bool := decide (c ≤ 0) || decide (c * c ≤ distSq a b)

/-- Modelled from the spec: encodes `Utils.Distance(a, b) < c`
(`√x < c ↔ 0 < c ∧ x < c²` for `x ≥ 0`). -/
def distLt (a b : Pt) (c : ℚ) : Bool := decide (0 < c) && decide (distSq a b < c * c)

/-- Python's `int(...)` truncation toward zero on a rational number. -/
def pyInt (q : ℚ) : Int := q.num.tdiv q.den

/-- `_clamp(n, low, high)` from `PyQuishAI.py`: `max(low, min(high, n))`. -/
def _clamp (n low high : Int) : Int := max low (min high n)

/-- Python list indexing `l[i]` at a nonnegative in-range index (every indexing
in the embedded code happens after a clamp or an explicit bound check, so the
default is never produced by a reachable call). -/
def pyIdx (l : List Pt) (i : Int) : Pt :=
  ((if 0 ≤ i then l.get? i.toNat else none).getD (0, 0))

/-- First element of the list attaining the minimal key (Python's `min` and a
stable by-key sort both select this element: ties keep the earliest). -/
def firstMin {α : Type} (key : α → ℚ) : List α → Option α
  | [] => none
  | x :: xs =>
    match firstMin key xs with
    | none => some x
    | some m => if key x ≤ key m then some x else some m

theorem firstMin_eq_none_iff {α : Type} (key : α → ℚ) (l : List α) :
    firstMin key l = none ↔ l = [] := by
  cases l with
  | nil => simp [firstMin]
  | cons x xs =>
    simp only [firstMin]
    cases firstMin key xs with
    | none => simp
    | some m =>
      constructor
      · intro h
        by_cases hk : key x ≤ key m <;> simp [hk] at h
      · intro h; exact absurd h (List.cons_ne_nil _ _)

theorem firstMin_mem {α : Type} (key : α → ℚ) (l : List α) (m : α)
    (h : firstMin key l = some m) : m ∈ l := by
  induction l with
  | nil => simp [firstMin] at h
  | cons x xs ih =>
    simp only [firstMin] at h
    cases hxs : firstMin key xs with
    | none => rw [hxs] at h; simp at h; simp [h]
    | some m' =>
      rw [hxs] at h
      by_cases hk : key x ≤ key m' <;> simp [hk] at h
      · simp [h]
      · exact List.mem_cons_of_mem _ (ih (h ▸ hxs))

theorem firstMin_min {α : Type} (key : α → ℚ) (l : List α) (m : α)
    (h : firstMin key l = some m) : ∀ e ∈ l, key m ≤ key e := by
  induction l generalizing m with
  | nil => simp [firstMin] at h
  | cons x xs ih =>
    simp only [firstMin] at h
    cases hxs : firstMin key xs with
    | none =>
      rw [hxs] at h; simp at h
      rw [(firstMin_eq_none_iff key xs).mp hxs]
      simp [h]
    | some m' =>
      rw [hxs] at h
      intro e he
      by_cases hk : key x ≤ key m' <;> simp [hk] at h
      · subst h
        rcases List.mem_cons.mp he with rfl | hmem
        · exact le_refl _
        · exact le_trans hk (ih m' hxs e hmem)
      · subst h
        rcases List.mem_cons.mp he with rfl | hmem
        · exact le_of_not_le hk
        · exact ih m' hxs e hmem

theorem find?_congr {α : Type} (p q : α → Bool) (l : List α)
    (h : ∀ e ∈ l, p e = q e) : l.find? p = l.find? q := by
  induction l with
  | nil => rfl
  | cons x xs ih =>
    have hx := h x (List.mem_cons_self x xs)
    simp only [List.find?]
    rw [hx]
    cases q x with
    | true => rfl
    | false => exact ih (fun e he => h e (List.mem_cons_of_mem _ he))

/-- `firstMin` is exactly "the first element of the list whose key is ≤ every
key in the list". -/
theorem firstMin_eq_find? {α : Type} (key : α → ℚ) (l : List α) :
    firstMin key l = l.find? (fun e => l.all (fun e2 => decide (key e ≤ key e2))) := by
  induction l with
  | nil => rfl
  | cons x xs ih =>
    simp only [firstMin]
    cases hxs : firstMin key xs with
    | none =>
      rw [(firstMin_eq_none_iff key xs).mp hxs]
      simp [List.find?, List.all]
    | some m =>
      have hmem := firstMin_mem key xs m hxs
      have hmin := firstMin_min key xs m hxs
      by_cases hk : key x ≤ key m
      · simp only [hk, if_pos]
        have hall : (x :: xs).all (fun e2 => decide (key x ≤ key e2)) = true := by
          simp only [List.all_eq_true]
          intro e he
          rcases List.mem_cons.mp he with rfl | hmem'
          · simp
          · simp; exact le_trans hk (hmin e hmem')
        simp [List.find?, hall]
      · simp only [hk, if_neg, not_false_iff]
        have hxfail : (x :: xs).all (fun e2 => decide (key x ≤ key e2)) = false := by
          simp only [List.all_eq_false]
          exact ⟨m, List.mem_cons_of_mem _ hmem, by simp [hk]⟩
        simp only [List.find?, hxfail]
        rw [hxs] at ih
        rw [ih]
        apply find?_congr
        intro e he
        have hlt : key m < key x := lt_of_not_le hk
        by_cases hpe : xs.all (fun e2 => decide (key e ≤ key e2)) = true
        · have hem : key e ≤ key m := by
            have := List.all_eq_true.mp hpe m hmem
            simpa using this
          have hex : key e ≤ key x := le_trans hem (le_of_lt hlt)
          simp only [List.all_cons]
          simp [hex, hpe]
        · have hpe' : xs.all (fun e2 => decide (key e ≤ key e2)) = false :=
            Bool.eq_false_iff.mpr hpe
          simp only [List.all_cons, hpe', Bool.and_false]

/-- Stable insertion of `x` before the first element `y` with `le x y`. -/
def insertLe {α : Type} (le : α → α → Bool) (x : α) : List α → List α
  | [] => [x]
  | y :: ys => if le x y then x :: y :: ys else y :: insertLe le x ys

/-- Modelled from the spec: `AgentArray.Sort.ByDistance` (Py4GWCoreLib, not
under `src/`) sorts by distance to a reference point, stably ("ties broken by
Sensing-Port-reported array order — stable"); embedded as a stable insertion
sort on the squared-distance key. -/
def sortByKey {α : Type} (key : α → ℚ) : List α → List α
  | [] => []
  | x :: xs => insertLe (fun a b => decide (key a ≤ key b)) x (sortByKey key xs)

theorem sortByKey_head? {α : Type} (key : α → ℚ) (l : List α) :
    (sortByKey key l).head? = firstMin key l := by
  induction l with
  | nil => rfl
  | cons x xs ih =>
    simp only [sortByKey, firstMin]
    cases hs : sortByKey key xs with
    | nil =>
      rw [hs] at ih
      simp only [List.head?] at ih
      rw [← ih]
      simp [insertLe]
    | cons y ys =>
      rw [hs] at ih
      simp only [List.head?] at ih
      rw [← ih]
      simp only [insertLe]
      by_cases hk : key x ≤ key y <;> simp [hk]

end PyQuish

namespace PyQuish

/-! ### Waypoint path model (`merge_map_segments`, `flatten_map_path`)

The raw map data loaded from a map script is an untyped Python value: either a
flat list of coordinate-like entries, or a list of segment dicts whose `"path"`
key holds the segment's waypoints.  We embed exactly the shapes those two
functions distinguish. -/

/-- A raw entry that is supposed to be a 2D coordinate.  `is_coordinate`
in `analyze_pyquishai_paths.py` accepts list/tuple values of length ≥ 2 whose
first two items are numeric (`coord`), and rejects everything else (`bad`). -/
inductive PtVal : Type where
  | coord (x y : ℚ)
  | bad
deriving DecidableEq

/-- The value found under a segment dict's `"path"` key: a list (or tuple,
which both functions treat as a list) of raw points, or some non-list value. -/
inductive PathField : Type where
  | lst (pts : List PtVal)
  | nonlist
deriving DecidableEq

/-- A segment dict: the `"path"` key may be absent (`none`). Other keys
(`"bless"`, `"rally"`) do not affect the merge. -/
structure Segment : Type where
  path : Option PathField
deriving DecidableEq

/-- One element of the raw top-level list: a segment dict or a point-like
entry. -/
inductive Elem : Type where
  | dictE (s : Segment)
  | ptE (p : PtVal)
deriving DecidableEq

/-- `isinstance(x, dict)` for a top-level element. -/
def isDict : Elem → Bool
  | .dictE _ => true
  | .ptE _ => false

/-- The raw `data` argument: a Python list, or some non-list value. -/
inductive RawData : Type where
  | list (l : List Elem)
  | notList
deriving DecidableEq

/-- `segment.get("path", [])` followed by `all_coords.extend(...)` in
`merge_map_segments`: a missing key defaults to `[]`; extending with a
non-list, non-iterable value raises `TypeError` (modelled as `none`). -/
def extendSeg : Segment → Option (List PtVal)
  | ⟨none⟩ => some []
  | ⟨some (.lst l)⟩ => some l
  | ⟨some .nonlist⟩ => none

/-- The segmented loop of `merge_map_segments`: `all_coords.extend(...)` over
each segment in order (`none` when an extend raises). -/
def mergeSegsLoop : List Elem → Option (List PtVal)
  | [] => some []
  | .dictE s :: rest => do
      let here ← extendSeg s
      let there ← mergeSegsLoop rest
      pure (here ++ there)
  | .ptE _ :: _ => none

/-- `merge_map_segments(data)` from `PyQuishAI.py` (lines 662–670): a list of
dicts is flattened by concatenating each segment's `"path"` (default `[]`); any
other list is returned verbatim; a non-list yields `[]`.  The flattened result
re-enters the waypoint list as point entries (`Elem.ptE`). -/
def merge_map_segments : RawData → Option (List Elem)
  | .list data =>
      if data.all isDict then
        (mergeSegsLoop data).map (fun cs => cs.map Elem.ptE)
      else some data
  | .notList => some []

/-- A segment whose `"path"` is present and a list. -/
def goodSeg : Elem → Bool
  | .dictE ⟨some (.lst _)⟩ => true
  | _ => false

/-- The `"path"` list of a well-formed segment. -/
def segPath : Elem → List PtVal
  | .dictE ⟨some (.lst l)⟩ => l
  | _ => []

theorem mergeSegsLoop_good (data : List Elem) (h : data.all goodSeg = true) :
    mergeSegsLoop data = some (data.flatMap segPath) := by
  induction data with
  | nil => rfl
  | cons e rest ih =>
    rw [List.all_cons, Bool.and_eq_true] at h
    obtain ⟨he, hrest⟩ := h
    match e with
    | .dictE ⟨some (.lst l)⟩ =>
      simp only [mergeSegsLoop, extendSeg, Option.bind_eq_bind, Option.some_bind, ih hrest]
      rfl
    | .dictE ⟨none⟩ => simp [goodSeg] at he
    | .dictE ⟨some .nonlist⟩ => simp [goodSeg] at he
    | .ptE _ => simp [goodSeg] at he

/-! ### `flatten_map_path` from `analyze_pyquishai_paths.py` -/

/-- The non-fatal warnings `flatten_map_path` can record. -/
inductive PWarning : Type where
  | expectedList
  | missingPath (segIdx : Nat)
  | badSegPoint (segIdx ptIdx : Nat)
  | badEntry (idx : Nat)
deriving DecidableEq

/-- `is_coordinate(candidate)`: a list/tuple of length ≥ 2 with two leading
numeric entries. -/
def is_coordinate : PtVal → Bool
  | .coord _ _ => true
  | .bad => false

/-- `normalise_coordinate(value)`: the `(float(x), float(y))` pair. -/
def normalise_coordinate : PtVal → Pt
  | .coord x y => (x, y)
  | .bad => (0, 0)

/-- The inner per-point loop of the segmented branch: keep coordinates, warn
about (and skip) anything else. -/
def segPointsLoop (segIdx : Nat) : Nat → List PtVal → List Pt × List PWarning
  | _, [] => ([], [])
  | ptIdx, p :: rest =>
    let (cs, ws) := segPointsLoop segIdx (ptIdx + 1) rest
    if is_coordinate p then (normalise_coordinate p :: cs, ws)
    else (cs, PWarning.badSegPoint segIdx ptIdx :: ws)

/-- The per-segment loop of the segmented branch of `flatten_map_path`: a
segment whose `"path"` is missing or not a list yields a warning and is
skipped (a non-dict entry is likewise treated as having no `"path"`). -/
def flattenSegsLoop : Nat → List Elem → List Pt × List PWarning
  | _, [] => ([], [])
  | i, e :: rest =>
    let (cs, ws) := flattenSegsLoop (i + 1) rest
    match e with
    | .dictE ⟨some (.lst pts)⟩ =>
      let (pcs, pws) := segPointsLoop i 0 pts
      (pcs ++ cs, pws ++ ws)
    | _ => (cs, PWarning.missingPath i :: ws)

/-- The flat branch of `flatten_map_path`: keep coordinate entries, warn about
everything else. -/
def flattenFlatLoop : Nat → List Elem → List Pt × List PWarning
  | _, [] => ([], [])
  | idx, e :: rest =>
    let (cs, ws) := flattenFlatLoop (idx + 1) rest
    match e with
    | .ptE p =>
      if is_coordinate p then (normalise_coordinate p :: cs, ws)
      else (cs, PWarning.badEntry idx :: ws)
    | .dictE _ => (cs, PWarning.badEntry idx :: ws)

/-- `flatten_map_path(data)` from `analyze_pyquishai_paths.py` (lines
116–168): returns the ordered coordinate list and the warnings collected while
parsing.  The segmented branch is taken when the data is a nonempty list of
dicts. -/
def flatten_map_path : RawData → List Pt × List PWarning
  | .notList => ([], [PWarning.expectedList])
  | .list data =>
    if data ≠ [] ∧ data.all isDict then flattenSegsLoop 0 data
    else flattenFlatLoop 0 data

/-- The coordinates a single raw entry contributes in the segmented branch
(independent of its position). -/
def elemCoords : Elem → List Pt
  | .dictE ⟨some (.lst pts)⟩ => (pts.filter is_coordinate).map normalise_coordinate
  | _ => []

theorem segPointsLoop_fst (segIdx : Nat) (pts : List PtVal) : ∀ ptIdx,
    (segPointsLoop segIdx ptIdx pts).1 = (pts.filter is_coordinate).map normalise_coordinate := by
  induction pts with
  | nil => intro ptIdx; rfl
  | cons p rest ih =>
    intro ptIdx
    simp only [segPointsLoop]
    cases hp : is_coordinate p <;>
      simp [hp, List.filter_cons, ih (ptIdx + 1)]

/-- The coordinate part of the segmented loop is the concatenation of the
per-segment contributions, independently of the enumeration start. -/
theorem flattenSegsLoop_fst (data : List Elem) : ∀ i,
    (flattenSegsLoop i data).1 = data.flatMap elemCoords := by
  induction data with
  | nil => intro i; rfl
  | cons e rest ih =>
    intro i
    match e with
    | .dictE ⟨some (.lst pts)⟩ =>
      simp only [flattenSegsLoop, List.flatMap_cons, elemCoords]
      rw [← ih (i + 1)]
      rw [segPointsLoop_fst]
    | .dictE ⟨none⟩ => simp only [flattenSegsLoop, List.flatMap_cons, elemCoords, ih (i + 1)]; rfl
    | .dictE ⟨some .nonlist⟩ =>
      simp only [flattenSegsLoop, List.flatMap_cons, elemCoords, ih (i + 1)]; rfl
    | .ptE _ => simp only [flattenSegsLoop, List.flatMap_cons, elemCoords, ih (i + 1)]; rfl

/-- The warning list of the segmented loop over an append splits. -/
theorem flattenSegsLoop_snd_append (l₁ l₂ : List Elem) : ∀ i,
    (flattenSegsLoop i (l₁ ++ l₂)).2 =
      (flattenSegsLoop i l₁).2 ++ (flattenSegsLoop (i + l₁.length) l₂).2 := by
  induction l₁ with
  | nil => intro i; simp [flattenSegsLoop]
  | cons e rest ih =>
    intro i
    have harith : i + 1 + rest.length = i + (rest.length + 1) := by omega
    match e with
    | .dictE ⟨some (.lst pts)⟩ =>
      simp only [List.cons_append, flattenSegsLoop, List.append_eq, ih (i + 1),
        List.length_cons, harith, List.append_assoc]
    | .dictE ⟨none⟩ =>
      simp only [List.cons_append, flattenSegsLoop, List.append_eq, ih (i + 1),
        List.length_cons, harith]
    | .dictE ⟨some .nonlist⟩ =>
      simp only [List.cons_append, flattenSegsLoop, List.append_eq, ih (i + 1),
        List.length_cons, harith]
    | .ptE _ =>
      simp only [List.cons_append, flattenSegsLoop, List.append_eq, ih (i + 1),
        List.length_cons, harith]

/-- A segment whose `"path"` field is missing or not a list. -/
def badPathSeg (s : Segment) : Prop := s.path = none ∨ s.path = some PathField.nonlist

theorem goodSeg_isDict (e : Elem) (h : goodSeg e = true) : isDict e = true := by
  match e with
  | .dictE _ => rfl
  | .ptE _ => simp [goodSeg] at h

/-- **C1** (Flatten order): for a segmented `RawPath` — a list of segment
dicts, each carrying a `path` list — `merge_map_segments` returns exactly the
concatenation of the segment `path` lists in original segment order; for a
flat list of point entries the input list is returned verbatim. -/
theorem merge_flatten_order :
    (∀ data : List Elem, data.all goodSeg = true →
        merge_map_segments (.list data) = some ((data.flatMap segPath).map Elem.ptE))
    ∧ (∀ data : List Elem, (∀ e ∈ data, isDict e = false) →
        merge_map_segments (.list data) = some data) := by
  constructor
  · intro data hgood
    have hdict : data.all isDict = true :=
      List.all_eq_true.mpr fun e he => goodSeg_isDict e (List.all_eq_true.mp hgood e he)
    simp only [merge_map_segments, hdict, if_pos, mergeSegsLoop_good data hgood]
    rfl
  · intro data hflat
    cases data with
    | nil => rfl
    | cons e rest =>
      have hne : (e :: rest).all isDict = false := by
        rw [List.all_eq_false]
        exact ⟨e, List.mem_cons_self e rest, by simp [hflat e (List.mem_cons_self e rest)]⟩
      simp [merge_map_segments, hne]

/-- Witness for `merge_flatten_order` at a concrete segmented path and a
concrete flat path. -/
theorem merge_flatten_order_witness :
    merge_map_segments (.list
        [Elem.dictE ⟨some (.lst [PtVal.coord 1 2])⟩,
         Elem.dictE ⟨some (.lst [PtVal.coord 3 4, PtVal.coord 5 6])⟩]) =
      some [Elem.ptE (PtVal.coord 1 2), Elem.ptE (PtVal.coord 3 4), Elem.ptE (PtVal.coord 5 6)]
    ∧ merge_map_segments (.list [Elem.ptE (PtVal.coord 7 8), Elem.ptE (PtVal.coord 9 10)]) =
      some [Elem.ptE (PtVal.coord 7 8), Elem.ptE (PtVal.coord 9 10)] :=
  ⟨merge_flatten_order.1 _ (by decide), merge_flatten_order.2 _ (by decide)⟩

/-- **C8** (Malformed-segment robustness): in a segmented `RawPath`, a segment
whose `path` field is missing or not a list produces a non-fatal warning
naming that segment's index, contributes zero points, and the merge continues
with the remaining segments: the flattened output is exactly the contribution
of the segments before it plus that of the segments after it. -/
theorem malformed_segment_robustness (l₁ l₂ : List Elem) (s : Segment)
    (hdict : (l₁ ++ Elem.dictE s :: l₂).all isDict = true)
    (hbad : badPathSeg s) :
    PWarning.missingPath l₁.length ∈ (flatten_map_path (.list (l₁ ++ Elem.dictE s :: l₂))).2
    ∧ (flatten_map_path (.list (l₁ ++ Elem.dictE s :: l₂))).1 =
        l₁.flatMap elemCoords ++ l₂.flatMap elemCoords := by
  have hne : l₁ ++ Elem.dictE s :: l₂ ≠ [] := by
    intro h
    exact List.cons_ne_nil _ _ (List.append_eq_nil.mp h).2
  have hbranch : flatten_map_path (.list (l₁ ++ Elem.dictE s :: l₂)) =
      flattenSegsLoop 0 (l₁ ++ Elem.dictE s :: l₂) := by
    simp only [flatten_map_path]
    rw [if_pos ⟨hne, hdict⟩]
  constructor
  · rw [hbranch, flattenSegsLoop_snd_append]
    apply List.mem_append_right
    have hstep : (flattenSegsLoop (0 + l₁.length) (Elem.dictE s :: l₂)).2 =
        PWarning.missingPath (0 + l₁.length) :: (flattenSegsLoop (0 + l₁.length + 1) l₂).2 := by
      rcases hbad with h | h <;>
        · rw [show s = ⟨s.path⟩ from rfl, h]
          rfl
    rw [hstep, Nat.zero_add]
    exact List.mem_cons_self _ _
  · rw [hbranch, flattenSegsLoop_fst, List.flatMap_append, List.flatMap_cons]
    have hzero : elemCoords (Elem.dictE s) = [] := by
      rcases hbad with h | h <;>
        · rw [show s = ⟨s.path⟩ from rfl, h]
          rfl
    rw [hzero, List.nil_append]

/-! ### The `FollowPathAndAggro` controller (`PyQuishAI.py`, lines 231–602)

The per-tick environment read from the game (player position, enemy array,
entity positions/aliveness, clocks, the looting flag) is bundled in `World`;
the controller's own mutable attributes form the `FollowPathAndAggro`
structure, and the module-level blessing globals form `BlessState`.  Side
effects on the game (movement commands, target changes, the blessing action)
are collected in an `Effect` trace. -/

/-- One tick's read-only view of the game world.
`agentPosOk` models whether `Agent.GetXY(id)` succeeds (its failure is caught
by the `try`/`except` around the combat-mode position fetch). -/
structure World : Type where
  playerPos : Pt
  enemies : List Nat
  agentAlive : Nat → Bool
  agentPos : Nat → Pt
  agentPosOk : Nat → Bool
  now_ms : Nat
  time_s : ℚ
  inLooting : Bool

/-- Modelled from the spec: `Timer` (Py4GWCoreLib, not under `src/`) records a
start instant; `HasElapsed(ms)` holds once `ms` milliseconds have passed and
`Reset()` restarts it at the current instant. -/
def timerHasElapsed (start now ms : Nat) : Bool := decide (ms ≤ now - start)

/-- Modelled from the spec: `Routines.Movement.PathHandler` (Py4GWCoreLib, not
under `src/`) is the Path Cursor: a waypoint list plus an index that is `None`
before the first advance, readable and writable through the attribute probes
`_get_index_from_handler` / `_set_index_on_handler`. -/
structure PathHandler : Type where
  points : List Pt
  index : Option Int
deriving DecidableEq

/-- Modelled from the spec: `advance()` steps the cursor to the next waypoint
and returns it, or returns nothing when the path is exhausted. -/
def PathHandler.advance (ph : PathHandler) : Option Pt × PathHandler :=
  let nxt : Int := match ph.index with | none => 0 | some i => i + 1
  if 0 ≤ nxt ∧ nxt < (ph.points.length : Int) then
    (some (pyIdx ph.points nxt), { ph with index := some nxt })
  else (none, ph)

/-- Modelled from the spec: `reset()` returns the cursor to the
before-first-advance state. -/
def PathHandler.reset (ph : PathHandler) : PathHandler := { ph with index := none }

/-- Modelled from the spec: `Routines.Movement.FollowXY` (Py4GWCoreLib, not
under `src/`) is the Movement Port: `move_to_waypoint` commands movement (and
makes `is_following()` report true), `_following` and `arrived` are settable
flags, and its own `update()` drives motion without touching controller
state. -/
structure FollowXY : Type where
  following : Bool
  arrived : Bool
deriving DecidableEq

/-- Modelled from the spec: commanding movement makes the port report
"following". -/
def FollowXY.move_to_waypoint (f : FollowXY) (_p : Pt) : FollowXY :=
  { f with following := true }

/-- Modelled from the spec: the port's own per-tick update leaves the
controller-visible flags alone. -/
def FollowXY.update (f : FollowXY) : FollowXY := f

/-- `self._mode`: `'path'` or `'combat'`. -/
inductive Mode : Type where
  | path
  | combat
deriving DecidableEq

/-- The human-readable `status_message` strings, one constructor per distinct
format string of the source. -/
inductive StatusMsg : Type where
  | waitingToBegin
  | waitingLooting
  | nearBlessingPoint (p : Pt)
  | switchingCombat
  | combatDone
  | noEnemiesThrottled
  | enemyFetchFailed
  | closingIn (x y : Int)
  | movingTo (p : Pt)
  | flowingTo (n : Int) (p : Pt)
  | arrivedFinal
  | noValidNext
  | pathResetMoving (p : Pt)
  | lostCurrentPoint
  | markedReachedCombat
  | noWaypointsAvailable
  | noWaypointsSeek
  | debugForcedMove (i : Int) (hold : Bool)
  | debugHoldingAt (i : Int)
  | debugMovingTo (i : Int)
deriving DecidableEq

/-- Commands the controller issues against the game during one tick. -/
inductive Effect : Type where
  | moveToWaypoint (p : Pt)
  | changeTarget (id : Nat)
  | playerMove (x y : Int)
  | getBlessed
deriving DecidableEq

/-- `ARRIVAL_TOLERANCE = 250` (`PyQuishAI.py`, line 22). -/
def ARRIVAL_TOLERANCE : Int := 250

/-- The module-level blessing state (`FSM_vars.blessing_points`,
`.blessing_triggered`, `.blessing_timers`). -/
structure BlessState : Type where
  points : List Pt
  triggered : List Pt
  timers : List (Pt × ℚ)
deriving DecidableEq

/-- Python dict lookup on the timers association list. -/
def dictGet (p : Pt) : List (Pt × ℚ) → Option ℚ
  | [] => none
  | (q, t) :: rest => if q = p then some t else dictGet p rest

/-- `trigger_blessing_at(point)` (`PyQuishAI.py`, lines 108–121): already
triggered → no-op; first sighting → record the time; within 5 s of the first
sighting → no-op; otherwise fire `Get_Blessed()` once and mark triggered. -/
def trigger_blessing_at (tnow : ℚ) (p : Pt) (b : BlessState) : BlessState × List Effect :=
  if p ∈ b.triggered then (b, [])
  else
    match dictGet p b.timers with
    | none => ({ b with timers := (p, tnow) :: b.timers }, [])
    | some t0 =>
      if tnow - t0 < 5 then (b, [])
      else ({ b with triggered := p :: b.triggered }, [Effect.getBlessed])

/-- The Python-truthiness test `if x:` on an optional entity id (`None` and
the id `0` are both falsy). -/
def truthyId : Option Nat → Bool
  | none => false
  | some i => i != 0

/-- `Agent.IsAlive` applied to an optional id (evaluated in the source only
after a truthiness check). -/
def aliveOf (w : World) : Option Nat → Bool
  | none => false
  | some t => w.agentAlive t

/-- The controller state: one field per attribute set in
`FollowPathAndAggro.__init__` (lines 232–266). -/
structure FollowPathAndAggro : Type where
  path_handler : PathHandler
  follow_handler : FollowXY
  aggro_range : ℚ
  last_scanned_enemy : Option Nat
  scan_move_thresh : ℚ
  last_scan_pos : Pt
  scan_interval_ms : Nat
  enemy_scan_timer : Nat
  last_target_id : Option Nat
  last_move_target : Option (Int × Int)
  stats_start_time : ℚ
  enemy_array_fetches : Nat
  change_target_calls : Nat
  move_calls : Nat
  stats_interval_secs : ℚ
  last_enemy_check : Nat
  current_target_enemy : Option Nat
  mode : Mode
  current_path_point : Option Pt
  status_message : StatusMsg
  external_waypoints : List Pt
  fsm_explorable_waypoints : List Pt
  forced_index : Option Int
  debug_hold : Bool
  early_advance_dist : Int
  combat_reach_dist : Int
deriving DecidableEq

namespace FollowPathAndAggro

/-- `__init__(path_handler, follow_handler, aggro_range, log_actions,
waypoints)`; the world supplies `Player.GetXY()`, the timer starts and
`time.time()`.  `fsm_explorable_waypoints` mirrors the module-level
`FSM_vars.explorable_waypoints` cache read by `get_waypoints` (constant
during ticks). -/
def init (ph : PathHandler) (fh : FollowXY) (aggro_range : ℚ) (waypoints : List Pt)
    (fsmCache : List Pt) (w : World) : FollowPathAndAggro :=
  { path_handler := ph
    follow_handler := fh
    aggro_range := aggro_range
    last_scanned_enemy := none
    scan_move_thresh := aggro_range * (3 / 4)
    last_scan_pos := w.playerPos
    scan_interval_ms := 500
    enemy_scan_timer := w.now_ms
    last_target_id := none
    last_move_target := none
    stats_start_time := w.time_s
    enemy_array_fetches := 0
    change_target_calls := 0
    move_calls := 0
    stats_interval_secs := 30
    last_enemy_check := w.now_ms
    current_target_enemy := none
    mode := .path
    current_path_point := none
    status_message := .waitingToBegin
    external_waypoints := waypoints
    fsm_explorable_waypoints := fsmCache
    forced_index := none
    debug_hold := false
    early_advance_dist := pyInt ((ARRIVAL_TOLERANCE : ℚ) * (3 / 2))
    combat_reach_dist := pyInt ((ARRIVAL_TOLERANCE : ℚ) * (5 / 4)) }

/-- `enable_hold()` (line 269). -/
def enable_hold (s : FollowPathAndAggro) : FollowPathAndAggro :=
  { s with debug_hold := true }

/-- `release_hold()` (lines 270–272). -/
def release_hold (s : FollowPathAndAggro) : FollowPathAndAggro :=
  { s with debug_hold := false, forced_index := none }

/-- `get_waypoints()` (lines 295–306): the explicit cache, else the handler's
list, else the module-level cache (else empty). -/
def get_waypoints (s : FollowPathAndAggro) : List Pt :=
  if s.external_waypoints ≠ [] then s.external_waypoints
  else if s.path_handler.points ≠ [] then s.path_handler.points
  else s.fsm_explorable_waypoints

/-- `min(range(len(wps)), key=lambda i: Utils.Distance((px, py), wps[i]))`:
the first index of a nearest waypoint (`none` iff the list is empty). -/
def nearestWpIdx (w : World) (wps : List Pt) : Option Nat :=
  firstMin (fun i => distSq w.playerPos ((wps.get? i).getD (0, 0))) (List.range wps.length)

/-- `get_current_waypoint()` (lines 308–320). -/
def get_current_waypoint (s : FollowPathAndAggro) (w : World) : Option Pt :=
  match s.current_path_point with
  | some p => some p
  | none =>
    let wps := get_waypoints s
    match nearestWpIdx w wps with
    | some i => some ((wps.get? i).getD (0, 0))
    | none => none

/-- `get_current_index()` (lines 322–338): forced index (clamped), else the
handler's index, else the index of the tracked point, else the nearest
waypoint's index, else `None`. -/
def get_current_index (s : FollowPathAndAggro) (w : World) : Option Int :=
  match s.forced_index with
  | some f => some (_clamp f 0 (max 0 ((get_waypoints s).length - 1)))
  | none =>
    match s.path_handler.index with
    | some i => some i
    | none =>
      let wps := get_waypoints s
      match s.current_path_point with
      | some p =>
        if p ∈ wps then some (wps.indexOf p : Int)
        else (nearestWpIdx w wps).map Int.ofNat
      | none => (nearestWpIdx w wps).map Int.ofNat

/-- `force_move_to_index(idx, sticky)` (lines 340–360): clamp, sync the
handler, set the one-shot forced index (entering HOLD when sticky), command
movement at once, and report success. -/
def force_move_to_index (s : FollowPathAndAggro) (idx : Int) (sticky : Bool) :
    Bool × FollowPathAndAggro × List Effect :=
  let wps := get_waypoints s
  if wps = [] then (false, { s with status_message := .noWaypointsAvailable }, [])
  else
    let idx := _clamp idx 0 ((wps.length : Int) - 1)
    let pt := pyIdx wps idx
    let s := { s with path_handler := { s.path_handler with index := some idx },
                      forced_index := some idx }
    let s := if sticky then enable_hold s else s
    let fh := { s.follow_handler with following := false, arrived := false }
    let s := { s with follow_handler := fh, current_path_point := some pt }
    let s := { s with follow_handler := s.follow_handler.move_to_waypoint pt,
                      status_message := .debugForcedMove idx s.debug_hold }
    (true, s, [Effect.moveToWaypoint pt])

/-- `seek_relative(delta, sticky)` (lines 362–372). -/
def seek_relative (s : FollowPathAndAggro) (w : World) (delta : Int) (sticky : Bool) :
    Bool × FollowPathAndAggro × List Effect :=
  let wps := get_waypoints s
  if wps = [] then (false, { s with status_message := .noWaypointsSeek }, [])
  else
    let cur := (get_current_index s w).getD 0
    let new_idx := _clamp (cur + delta) 0 ((wps.length : Int) - 1)
    force_move_to_index s new_idx sticky

/-- `_advance_index_only()` (lines 376–389): advance the internal index
without issuing a move (used during combat). -/
def _advance_index_only (s : FollowPathAndAggro) (w : World) :
    Bool × FollowPathAndAggro :=
  let wps := get_waypoints s
  if wps = [] then (false, s)
  else
    match get_current_index s w with
    | none => (false, s)
    | some cur =>
      let nxt := cur + 1
      if (wps.length : Int) ≤ nxt then (false, s)
      else
        (true, { s with path_handler := { s.path_handler with index := some nxt },
                        current_path_point := some (pyIdx wps nxt) })

/-- `_advance_index_and_move()` (lines 391–409): advance and immediately move
(fluid pathing). -/
def _advance_index_and_move (s : FollowPathAndAggro) (w : World) :
    Bool × FollowPathAndAggro × List Effect :=
  let wps := get_waypoints s
  if wps = [] then (false, s, [])
  else
    match get_current_index s w with
    | none => (false, s, [])
    | some cur =>
      let nxt := cur + 1
      if (wps.length : Int) ≤ nxt then (false, s, [])
      else
        let next_point := pyIdx wps nxt
        let s := { s with path_handler := { s.path_handler with index := some nxt },
                          current_path_point := some next_point }
        let s := { s with follow_handler := s.follow_handler.move_to_waypoint next_point,
                          status_message := .flowingTo nxt next_point }
        (true, s, [Effect.moveToWaypoint next_point])

/-- The filter comprehension of `_find_nearest_enemy` (lines 428–431): the
reported enemy array restricted to alive entities within `aggro_range` of the
player, in reported order. -/
def aggroFilter (s : FollowPathAndAggro) (w : World) : List Nat :=
  w.enemies.filter
    (fun e => w.agentAlive e && distLe w.playerPos (w.agentPos e) s.aggro_range)

/-- `_find_nearest_enemy()` (lines 425–434): count the fetch, filter the
enemy array to alive entities within `aggro_range`, and take the head of the
stable distance sort (`None` when no such entity). -/
def _find_nearest_enemy (s : FollowPathAndAggro) (w : World) :
    Option Nat × FollowPathAndAggro :=
  let s := { s with enemy_array_fetches := s.enemy_array_fetches + 1 }
  let enemies := aggroFilter s w
  match sortByKey (fun e => distSq w.playerPos (w.agentPos e)) enemies with
  | [] => (none, s)
  | e :: _ => (some e, s)

/-- The gate condition of `_throttled_scan` (lines 417–418): moved at least
`_scan_move_thresh` since the last sample, or the interval timer elapsed. -/
def scan_fires (s : FollowPathAndAggro) (w : World) : Bool :=
  distGe w.playerPos s.last_scan_pos s.scan_move_thresh
    || timerHasElapsed s.enemy_scan_timer w.now_ms s.scan_interval_ms

/-- `_throttled_scan()` (lines 413–423): fire the query when the distance
moved since the last sample reaches `_scan_move_thresh` or the 500 ms timer
elapsed; otherwise return the cached result unchanged. -/
def _throttled_scan (s : FollowPathAndAggro) (w : World) :
    Option Nat × FollowPathAndAggro :=
  let curr_pos := w.playerPos
  if scan_fires s w then
    let (r, s) := _find_nearest_enemy s w
    let s := { s with last_scanned_enemy := r, last_scan_pos := curr_pos,
                      enemy_scan_timer := w.now_ms }
    (s.last_scanned_enemy, s)
  else
    (s.last_scanned_enemy, s)

/-- The scan answer a tick will observe: fresh on fire, cached otherwise. -/
def scanResult (s : FollowPathAndAggro) (w : World) : Option Nat :=
  if scan_fires s w then (_find_nearest_enemy s w).1 else s.last_scanned_enemy

/-- The controller state `_throttled_scan` leaves behind. -/
def scanStateAfter (s : FollowPathAndAggro) (w : World) : FollowPathAndAggro :=
  if scan_fires s w then
    { s with last_scanned_enemy := scanResult s w, last_scan_pos := w.playerPos,
             enemy_scan_timer := w.now_ms,
             enemy_array_fetches := s.enemy_array_fetches + 1 }
  else s

/-- `_advance_to_next_point()` (lines 436–509). -/
def _advance_to_next_point (s : FollowPathAndAggro) (w : World) :
    FollowPathAndAggro × List Effect :=
  let wps := get_waypoints s
  if s.debug_hold then
    -- HOLD mode: move to a pending forced index once, never auto-advance.
    match s.forced_index with
    | some f =>
      if wps = [] then (s, [])
      else
        let idx := _clamp f 0 ((wps.length : Int) - 1)
        let next_point := pyIdx wps idx
        let s := { s with path_handler := { s.path_handler with index := some idx },
                          current_path_point := some next_point }
        let s := { s with follow_handler := s.follow_handler.move_to_waypoint next_point,
                          status_message := .debugHoldingAt idx,
                          forced_index := none }
        (s, [Effect.moveToWaypoint next_point])
    | none => (s, [])
  else if s.forced_index.isSome ∧ wps ≠ [] then
    -- One-shot forced move when NOT holding.
    let idx := _clamp (s.forced_index.getD 0) 0 ((wps.length : Int) - 1)
    let next_point := pyIdx wps idx
    let s := { s with path_handler := { s.path_handler with index := some idx },
                      current_path_point := some next_point }
    let s := { s with follow_handler := s.follow_handler.move_to_waypoint next_point,
                      status_message := .debugMovingTo idx,
                      forced_index := none }
    (s, [Effect.moveToWaypoint next_point])
  else if !s.follow_handler.following then
    let (np, ph) := s.path_handler.advance
    match np with
    | none =>
      let s := { s with path_handler := ph, status_message := .noValidNext }
      -- hasattr(self.path_handler, "reset") holds: reset and retry once.
      let ph2 := s.path_handler.reset
      let (rp, ph3) := ph2.advance
      match rp with
      | some retry_point =>
        let s := { s with path_handler := ph3, current_path_point := some retry_point }
        let s := { s with follow_handler := s.follow_handler.move_to_waypoint retry_point,
                          status_message := .pathResetMoving retry_point }
        (s, [Effect.moveToWaypoint retry_point])
      | none => ({ s with path_handler := ph3 }, [])
    | some next_point =>
      let s := { s with path_handler := ph, current_path_point := some next_point }
      let s := { s with follow_handler := s.follow_handler.move_to_waypoint next_point,
                        status_message := .movingTo next_point }
      (s, [Effect.moveToWaypoint next_point])
  else
    match s.current_path_point with
    | none =>
      ({ s with status_message := .lostCurrentPoint,
                follow_handler := { s.follow_handler with following := false } }, [])
    | some wp =>
      -- FLUID ADVANCE: if close and no enemies, flow to the next point.
      let no_enemies := s.last_scanned_enemy.isNone
      if no_enemies && distLe w.playerPos wp (s.early_advance_dist : ℚ) then
        let (ok, s', eff) := _advance_index_and_move s w
        if ok then (s', eff)
        else
          let fh := { s'.follow_handler with following := false, arrived := true }
          ({ s' with follow_handler := fh, status_message := .arrivedFinal }, eff)
      else if distLe w.playerPos wp ((ARRIVAL_TOLERANCE : ℚ)) then
        let (ok, s', eff) := _advance_index_and_move s w
        if ok then (s', eff)
        else
          let fh := { s'.follow_handler with following := false, arrived := true }
          ({ s' with follow_handler := fh, status_message := .arrivedFinal }, eff)
      else (s, [])

/-- `_maybe_log_stats()` (lines 511–523): every 30 s, reset the running
command counters (the log line itself is I/O only). -/
def _maybe_log_stats (s : FollowPathAndAggro) (w : World) : FollowPathAndAggro :=
  if s.stats_interval_secs ≤ w.time_s - s.stats_start_time then
    { s with stats_start_time := w.time_s, enemy_array_fetches := 0,
             change_target_calls := 0, move_calls := 0 }
  else s

/-- The mid-map blessing loop of `update()` (lines 534–542): the first
untriggered point within range 2500 gets the status line and a
`trigger_blessing_at` call, then the loop breaks. -/
def blessingLoop (s : FollowPathAndAggro) (b : BlessState) (w : World) :
    List Pt → FollowPathAndAggro × BlessState × List Effect
  | [] => (s, b, [])
  | p :: rest =>
    if p ∈ b.triggered then blessingLoop s b w rest
    else if distLt w.playerPos p 2500 then
      let s := { s with status_message := .nearBlessingPoint p }
      let (b', eff) := trigger_blessing_at w.time_s p b
      (s, b', eff)
    else blessingLoop s b w rest

/-- The `'path'` branch of `update()` (lines 544–554): throttled scan; a
truthy hit switches to combat, otherwise advance along the path. -/
def pathTick (s : FollowPathAndAggro) (w : World) :
    FollowPathAndAggro × List Effect :=
  let (target, s) := _throttled_scan s w
  if truthyId target then
    ({ s with current_target_enemy := target,
              last_enemy_check := w.now_ms,
              mode := .combat,
              status_message := .switchingCombat }, [])
  else
    _advance_to_next_point s w

/-- The combat-mode waypoint-reach block of `update()` (lines 557–567): if
the current waypoint is within `combat_reach_dist`, advance the index without
moving. -/
def combatReachCheck (s : FollowPathAndAggro) (w : World) : FollowPathAndAggro :=
  match get_current_waypoint s w with
  | none => s
  | some wp =>
    if distLe w.playerPos wp (s.combat_reach_dist : ℚ) then
      let (ok, s') := _advance_index_only s w
      if ok then { s' with status_message := .markedReachedCombat } else s'
    else s

/-- The `'combat'` branch of `update()` (lines 556–600).  The early exits of
the source `return` before the trailing `self.follow_handler.update()`; only
the command path reaches it, so it is applied inside that branch here. -/
def combatTick (s : FollowPathAndAggro) (w : World) :
    FollowPathAndAggro × List Effect :=
  let s := combatReachCheck s w
  if !(truthyId s.current_target_enemy && aliveOf w s.current_target_enemy) then
    ({ s with mode := .path, current_target_enemy := none,
              status_message := .combatDone }, [])
  else
    let (tOpt, s) := _throttled_scan s w
    let s := { s with current_target_enemy := tOpt }
    match tOpt with
    | none => ({ s with mode := .path, status_message := .noEnemiesThrottled }, [])
    | some t =>
      if t = 0 then
        ({ s with mode := .path, status_message := .noEnemiesThrottled }, [])
      else if !w.agentPosOk t then
        ({ s with mode := .path, current_target_enemy := none,
                  status_message := .enemyFetchFailed }, [])
      else
        let tx := (w.agentPos t).1
        let ty := (w.agentPos t).2
        let (s, e2) :=
          if some t ≠ s.last_target_id then
            ({ s with change_target_calls := s.change_target_calls + 1,
                      last_target_id := some t }, [Effect.changeTarget t])
          else (s, ([] : List Effect))
        let new_move : Int × Int := (pyInt tx, pyInt ty)
        let (s, e3) :=
          if some new_move ≠ s.last_move_target then
            ({ s with move_calls := s.move_calls + 1,
                      last_move_target := some new_move },
             [Effect.playerMove new_move.1 new_move.2])
          else (s, ([] : List Effect))
        let s := { s with status_message := .closingIn (pyInt tx) (pyInt ty) }
        ({ s with follow_handler := s.follow_handler.update }, e2 ++ e3)

/-- `update()` (lines 525–602): the per-tick entry point. -/
def update (s : FollowPathAndAggro) (b : BlessState) (w : World) :
    FollowPathAndAggro × BlessState × List Effect :=
  let s := _maybe_log_stats s w
  if w.inLooting then
    let s := { s with status_message := .waitingLooting }
    ({ s with follow_handler := s.follow_handler.update }, b, [])
  else
    let (s, b, e1) := blessingLoop s b w b.points
    match s.mode with
    | .path =>
      let (s, e2) := pathTick s w
      ({ s with follow_handler := s.follow_handler.update }, b, e1 ++ e2)
    | .combat =>
      let (s, e2) := combatTick s w
      (s, b, e1 ++ e2)

end FollowPathAndAggro

theorem _clamp_idem (v low high : Int) (h : low ≤ high) :
    _clamp (_clamp v low high) low high = _clamp v low high := by
  simp only [_clamp, max_def, min_def]
  split_ifs <;> omega

/-- The number of set-target commands in an effect trace. -/
def countChangeTarget (eff : List Effect) : Nat :=
  (eff.filter fun e => match e with | .changeTarget _ => true | _ => false).length

/-- The number of move-toward-target commands in an effect trace. -/
def countPlayerMove (eff : List Effect) : Nat :=
  (eff.filter fun e => match e with | .playerMove _ _ => true | _ => false).length

/-- Witness for `malformed_segment_robustness`: a three-segment path whose
middle segment has no usable `path`. -/
theorem malformed_segment_robustness_witness :
    PWarning.missingPath 1 ∈ (flatten_map_path (.list
        [Elem.dictE ⟨some (.lst [PtVal.coord 1 2])⟩, Elem.dictE ⟨none⟩,
         Elem.dictE ⟨some (.lst [PtVal.coord 3 4])⟩])).2
    ∧ (flatten_map_path (.list
        [Elem.dictE ⟨some (.lst [PtVal.coord 1 2])⟩, Elem.dictE ⟨none⟩,
         Elem.dictE ⟨some (.lst [PtVal.coord 3 4])⟩])).1 =
      [Elem.dictE (⟨some (.lst [PtVal.coord 1 2])⟩ : Segment)].flatMap elemCoords ++
      [Elem.dictE (⟨some (.lst [PtVal.coord 3 4])⟩ : Segment)].flatMap elemCoords :=
  malformed_segment_robustness
    [Elem.dictE ⟨some (.lst [PtVal.coord 1 2])⟩]
    [Elem.dictE ⟨some (.lst [PtVal.coord 3 4])⟩]
    ⟨none⟩ (by decide) (Or.inl rfl)

/-! ### C6: the blessing proximity trigger -/

/-- A run of `trigger_blessing_at` calls for point `p` at the given times (one
call per tick with the player inside the 2500 radius), returning the final
blessing state and the number of `Get_Blessed()` firings. -/
def blessRun (p : Pt) : BlessState → List ℚ → BlessState × Nat
  | b, [] => (b, 0)
  | b, t :: ts =>
    let step := trigger_blessing_at t p b
    let rest := blessRun p step.1 ts
    (rest.1, step.2.length + rest.2)

theorem trigger_triggered (t : ℚ) (p : Pt) (b : BlessState) (h : p ∈ b.triggered) :
    trigger_blessing_at t p b = (b, []) := by
  simp [trigger_blessing_at, h]

theorem trigger_first_seen (t : ℚ) (p : Pt) (b : BlessState) (h : p ∉ b.triggered)
    (ht : dictGet p b.timers = none) :
    trigger_blessing_at t p b = ({ b with timers := (p, t) :: b.timers }, []) := by
  simp [trigger_blessing_at, h, ht]

theorem trigger_too_early (t : ℚ) (p : Pt) (b : BlessState) (t0 : ℚ)
    (h : p ∉ b.triggered) (ht : dictGet p b.timers = some t0) (hlt : t - t0 < 5) :
    trigger_blessing_at t p b = (b, []) := by
  simp [trigger_blessing_at, h, ht, hlt]

theorem trigger_fire (t : ℚ) (p : Pt) (b : BlessState) (t0 : ℚ)
    (h : p ∉ b.triggered) (ht : dictGet p b.timers = some t0) (hge : ¬ t - t0 < 5) :
    trigger_blessing_at t p b =
      ({ b with triggered := p :: b.triggered }, [Effect.getBlessed]) := by
  simp [trigger_blessing_at, h, ht, hge]

theorem blessRun_triggered (p : Pt) (b : BlessState) (ts : List ℚ)
    (h : p ∈ b.triggered) : blessRun p b ts = (b, 0) := by
  induction ts with
  | nil => rfl
  | cons t ts ih =>
    simp only [blessRun, trigger_triggered t p b h]
    simp [ih]

theorem blessRun_le_one (p : Pt) (ts : List ℚ) : ∀ b : BlessState,
    (blessRun p b ts).2 ≤ 1 := by
  induction ts with
  | nil => intro b; simp [blessRun]
  | cons t ts ih =>
    intro b
    by_cases h : p ∈ b.triggered
    · rw [blessRun_triggered p b (t :: ts) h]
      simp
    · simp only [blessRun]
      cases ht : dictGet p b.timers with
      | none =>
        rw [trigger_first_seen t p b h ht]
        simpa using ih _
      | some t0 =>
        by_cases hlt : t - t0 < 5
        · rw [trigger_too_early t p b t0 h ht hlt]
          simpa using ih _
        · rw [trigger_fire t p b t0 h ht hlt]
          have hmem : p ∈ ({ b with triggered := p :: b.triggered } : BlessState).triggered :=
            List.mem_cons_self _ _
          rw [blessRun_triggered p _ ts hmem]
          simp

theorem blessRun_quiet (p : Pt) (ts : List ℚ) (t0 : ℚ) : ∀ b : BlessState,
    p ∉ b.triggered → dictGet p b.timers = some t0 →
    (∀ t ∈ ts, t - t0 < 5) → blessRun p b ts = (b, 0) := by
  induction ts with
  | nil => intro b _ _ _; rfl
  | cons t ts ih =>
    intro b h ht hall
    simp only [blessRun]
    rw [trigger_too_early t p b t0 h ht (hall t (List.mem_cons_self _ _))]
    rw [ih b h ht (fun u hu => hall u (List.mem_cons_of_mem _ hu))]
    simp

theorem blessRun_append (p : Pt) (l₁ l₂ : List ℚ) : ∀ b : BlessState,
    blessRun p b (l₁ ++ l₂) =
      ((blessRun p (blessRun p b l₁).1 l₂).1,
        (blessRun p b l₁).2 + (blessRun p (blessRun p b l₁).1 l₂).2) := by
  induction l₁ with
  | nil => intro b; simp [blessRun]
  | cons t l₁ ih =>
    intro b
    simp only [List.cons_append, blessRun, List.append_eq, ih]
    refine Prod.ext rfl ?_
    simp only []
    omega

/-- **C6** (Debounce): for every tracked point `p`, (i) a confirmed point
never fires again; (ii) any run of proximity calls fires at most once; (iii)
from a fresh first sighting at `t0`, no call strictly inside the 5 s debounce
window fires; and (iv) the first call at or after `t0 + 5` fires the blessing
action, marks the point confirmed, and the whole run fires exactly once. -/
theorem proximity_trigger_debounce (p : Pt) :
    (∀ (b : BlessState) (ts : List ℚ), p ∈ b.triggered → blessRun p b ts = (b, 0))
    ∧ (∀ (b : BlessState) (ts : List ℚ), (blessRun p b ts).2 ≤ 1)
    ∧ (∀ (b : BlessState) (t0 : ℚ) (ts : List ℚ), p ∉ b.triggered →
        dictGet p b.timers = none → (∀ t ∈ ts, t - t0 < 5) →
        (blessRun p b (t0 :: ts)).2 = 0)
    ∧ (∀ (b : BlessState) (t0 : ℚ) (ts1 : List ℚ) (t : ℚ) (ts2 : List ℚ),
        p ∉ b.triggered → dictGet p b.timers = none →
        (∀ u ∈ ts1, u - t0 < 5) → 5 ≤ t - t0 →
        (trigger_blessing_at t p (blessRun p b (t0 :: ts1)).1).2 = [Effect.getBlessed]
        ∧ p ∈ (trigger_blessing_at t p (blessRun p b (t0 :: ts1)).1).1.triggered
        ∧ (blessRun p b ((t0 :: ts1) ++ t :: ts2)).2 = 1) := by
  have hfreshrun : ∀ (b : BlessState) (t0 : ℚ) (ts : List ℚ), p ∉ b.triggered →
      dictGet p b.timers = none → (∀ t ∈ ts, t - t0 < 5) →
      blessRun p b (t0 :: ts) = ({ b with timers := (p, t0) :: b.timers }, 0) := by
    intro b t0 ts h ht hall
    simp only [blessRun]
    rw [trigger_first_seen t0 p b h ht]
    have ht' : dictGet p ({ b with timers := (p, t0) :: b.timers } : BlessState).timers
        = some t0 := by simp [dictGet]
    have h' : p ∉ ({ b with timers := (p, t0) :: b.timers } : BlessState).triggered := h
    rw [blessRun_quiet p ts t0 _ h' ht' hall]
    simp
  refine ⟨fun b ts h => blessRun_triggered p b ts h,
          fun b ts => blessRun_le_one p ts b,
          fun b t0 ts h ht hall => by rw [hfreshrun b t0 ts h ht hall],
          fun b t0 ts1 t ts2 h ht hall hge => ?_⟩
  have hb1 := hfreshrun b t0 ts1 h ht hall
  have hb1s : (blessRun p b (t0 :: ts1)).1 = { b with timers := (p, t0) :: b.timers } := by
    rw [hb1]
  have ht1 : dictGet p ({ b with timers := (p, t0) :: b.timers } : BlessState).timers
      = some t0 := by simp [dictGet]
  have h1 : p ∉ ({ b with timers := (p, t0) :: b.timers } : BlessState).triggered := h
  have hfire := trigger_fire t p { b with timers := (p, t0) :: b.timers } t0 h1 ht1
    (by linarith)
  refine ⟨by rw [hb1s, hfire], by rw [hb1s, hfire]; exact List.mem_cons_self _ _, ?_⟩
  rw [blessRun_append, hb1s, hb1]
  simp only [blessRun, hfire]
  rw [blessRun_triggered p _ ts2 (List.mem_cons_self _ _)]
  simp

/-- Witness for `proximity_trigger_debounce`: from a fresh state, ticks at
times 0, 1, 2 do not fire, the tick at time 5 fires and confirms, and the run
0, 1, 2, 5, 6 fires exactly once. -/
theorem proximity_trigger_debounce_witness :
    (trigger_blessing_at 5 ((1 : ℚ), (2 : ℚ))
        (blessRun ((1 : ℚ), (2 : ℚ)) ⟨[], [], []⟩ ((0 : ℚ) :: [1, 2])).1).2 = [Effect.getBlessed]
    ∧ ((1 : ℚ), (2 : ℚ)) ∈ (trigger_blessing_at 5 ((1 : ℚ), (2 : ℚ))
        (blessRun ((1 : ℚ), (2 : ℚ)) ⟨[], [], []⟩ ((0 : ℚ) :: [1, 2])).1).1.triggered
    ∧ (blessRun ((1 : ℚ), (2 : ℚ)) ⟨[], [], []⟩ (((0 : ℚ) :: [1, 2]) ++ (5 : ℚ) :: [6])).2 = 1 :=
  (proximity_trigger_debounce ((1 : ℚ), (2 : ℚ))).2.2.2 ⟨[], [], []⟩ 0 [1, 2] 5 [6]
    (by with_unfolding_all decide) rfl (by with_unfolding_all decide)
    (by with_unfolding_all decide)

namespace FollowPathAndAggro

/-- **C9** (seek_relative equivalence): with a non-empty waypoint list,
`seek_relative(delta, sticky)` returns exactly the result (state, movement
command and report) of `force_move_to_index(current + delta, sticky)`, where
`current` is `get_current_index()` with `None` read as 0; the inner clamp into
`[0, len-1]` makes the two calls agree. -/
theorem seek_relative_eq_force (s : FollowPathAndAggro) (w : World)
    (delta : Int) (sticky : Bool) (h : get_waypoints s ≠ []) :
    seek_relative s w delta sticky =
      force_move_to_index s ((get_current_index s w).getD 0 + delta) sticky := by
  have hlen : (0 : Int) ≤ (get_waypoints s).length - 1 := by
    have : get_waypoints s ≠ [] := h
    have hpos : 0 < (get_waypoints s).length := List.length_pos.mpr this
    omega
  simp only [seek_relative, force_move_to_index, if_neg h]
  rw [_clamp_idem _ _ _ hlen]

/-- Witness for `seek_relative_eq_force` at a concrete controller state. -/
theorem seek_relative_eq_force_witness :
    seek_relative
      (init ⟨[((0 : ℚ), (0 : ℚ)), (100, 0), (200, 0)], some 1⟩ ⟨false, false⟩ 2500
        [((0 : ℚ), (0 : ℚ)), (100, 0), (200, 0)] [] ⟨(0, 0), [], fun _ => false,
          fun _ => (0, 0), fun _ => true, 0, 0, false⟩)
      ⟨(0, 0), [], fun _ => false, fun _ => (0, 0), fun _ => true, 0, 0, false⟩ 1 true =
    force_move_to_index
      (init ⟨[((0 : ℚ), (0 : ℚ)), (100, 0), (200, 0)], some 1⟩ ⟨false, false⟩ 2500
        [((0 : ℚ), (0 : ℚ)), (100, 0), (200, 0)] [] ⟨(0, 0), [], fun _ => false,
          fun _ => (0, 0), fun _ => true, 0, 0, false⟩)
      ((get_current_index
          (init ⟨[((0 : ℚ), (0 : ℚ)), (100, 0), (200, 0)], some 1⟩ ⟨false, false⟩ 2500
            [((0 : ℚ), (0 : ℚ)), (100, 0), (200, 0)] [] ⟨(0, 0), [], fun _ => false,
              fun _ => (0, 0), fun _ => true, 0, 0, false⟩)
          ⟨(0, 0), [], fun _ => false, fun _ => (0, 0), fun _ => true, 0, 0, false⟩).getD 0 + 1)
      true :=
  seek_relative_eq_force _ _ 1 true (by with_unfolding_all decide)

/-- **C4** (Throttled scan gate): with the thresholds of the constructor
(`_scan_move_thresh = 0.75 × aggro_range`, `_scan_interval_ms = 500`), a
`_throttled_scan` call fires the underlying query (observable as the fetch
counter changing) iff the player moved at least the threshold from the last
sampled position or 500 ms elapsed on the scan timer; on fire it returns the
fresh nearest-enemy answer and overwrites the sampled position and timer, and
otherwise it returns the cached result with the whole state unchanged. -/
theorem _find_nearest_enemy_snd (s : FollowPathAndAggro) (w : World) :
    (_find_nearest_enemy s w).2 =
      { s with enemy_array_fetches := s.enemy_array_fetches + 1 } := by
  simp only [_find_nearest_enemy]
  cases sortByKey (fun e => distSq w.playerPos (w.agentPos e))
      (aggroFilter { s with enemy_array_fetches := s.enemy_array_fetches + 1 } w) with
  | nil => rfl
  | cons e r => rfl

theorem _throttled_scan_eq (s : FollowPathAndAggro) (w : World) :
    _throttled_scan s w = (scanResult s w, scanStateAfter s w) := by
  have hsnd := _find_nearest_enemy_snd s w
  cases hf : scan_fires s w with
  | false =>
    simp only [_throttled_scan, scanResult, scanStateAfter, hf, Bool.false_eq_true,
      if_false]
  | true =>
    simp only [_throttled_scan, scanResult, scanStateAfter, hf, if_true]
    rcases hfe : _find_nearest_enemy s w with ⟨r, s'⟩
    rw [hfe] at hsnd
    simp only at hsnd
    subst hsnd
    rfl

theorem throttled_scan_gate (s : FollowPathAndAggro) (w : World)
    (hthr : s.scan_move_thresh = s.aggro_range * (3 / 4))
    (hint : s.scan_interval_ms = 500) :
    (((_throttled_scan s w).2.enemy_array_fetches ≠ s.enemy_array_fetches)
        ↔ (distGe w.playerPos s.last_scan_pos (s.aggro_range * (3 / 4))
            || timerHasElapsed s.enemy_scan_timer w.now_ms 500) = true)
    ∧ ((distGe w.playerPos s.last_scan_pos (s.aggro_range * (3 / 4))
            || timerHasElapsed s.enemy_scan_timer w.now_ms 500) = true →
        (_throttled_scan s w).1 = (_find_nearest_enemy s w).1
        ∧ (_throttled_scan s w).2.last_scan_pos = w.playerPos
        ∧ (_throttled_scan s w).2.enemy_scan_timer = w.now_ms)
    ∧ ((distGe w.playerPos s.last_scan_pos (s.aggro_range * (3 / 4))
            || timerHasElapsed s.enemy_scan_timer w.now_ms 500) = false →
        _throttled_scan s w = (s.last_scanned_enemy, s)) := by
  have hgate : (distGe w.playerPos s.last_scan_pos (s.aggro_range * (3 / 4))
      || timerHasElapsed s.enemy_scan_timer w.now_ms 500) = scan_fires s w := by
    rw [scan_fires, hthr, hint]
  rw [_throttled_scan_eq, hgate]
  cases hf : scan_fires s w <;>
    refine ⟨?_, fun hfired => ?_, fun hquiet => ?_⟩ <;>
    simp_all [scanResult, scanStateAfter]

/-- Witness for `throttled_scan_gate`: a freshly constructed controller whose
timer has just elapsed fires and re-samples position and timer. -/
theorem throttled_scan_gate_witness :
    (_throttled_scan
        (init ⟨[], none⟩ ⟨false, false⟩ 2500 [((0 : ℚ), (0 : ℚ))] []
          ⟨(0, 0), [], fun _ => false, fun _ => (0, 0), fun _ => true, 0, 0, false⟩)
        ⟨(7, 0), [], fun _ => false, fun _ => (0, 0), fun _ => true, 600, 0, false⟩).1 =
      (_find_nearest_enemy
        (init ⟨[], none⟩ ⟨false, false⟩ 2500 [((0 : ℚ), (0 : ℚ))] []
          ⟨(0, 0), [], fun _ => false, fun _ => (0, 0), fun _ => true, 0, 0, false⟩)
        ⟨(7, 0), [], fun _ => false, fun _ => (0, 0), fun _ => true, 600, 0, false⟩).1
    ∧ (_throttled_scan
        (init ⟨[], none⟩ ⟨false, false⟩ 2500 [((0 : ℚ), (0 : ℚ))] []
          ⟨(0, 0), [], fun _ => false, fun _ => (0, 0), fun _ => true, 0, 0, false⟩)
        ⟨(7, 0), [], fun _ => false, fun _ => (0, 0), fun _ => true, 600, 0, false⟩).2.last_scan_pos = (7, 0)
    ∧ (_throttled_scan
        (init ⟨[], none⟩ ⟨false, false⟩ 2500 [((0 : ℚ), (0 : ℚ))] []
          ⟨(0, 0), [], fun _ => false, fun _ => (0, 0), fun _ => true, 0, 0, false⟩)
        ⟨(7, 0), [], fun _ => false, fun _ => (0, 0), fun _ => true, 600, 0, false⟩).2.enemy_scan_timer = 600 :=
  (throttled_scan_gate _ _ rfl rfl).2.1 (by with_unfolding_all decide)

/-! #### Branch lemmas for `update` -/

theorem get_waypoints_ext (s : FollowPathAndAggro) (h : s.external_waypoints ≠ []) :
    get_waypoints s = s.external_waypoints := by
  unfold get_waypoints
  rw [if_pos h]

theorem get_current_index_handler (s : FollowPathAndAggro) (w : World) (i : Int)
    (hf : s.forced_index = none) (hi : s.path_handler.index = some i) :
    get_current_index s w = some i := by
  unfold get_current_index
  rw [hf, hi]

theorem get_current_index_forced (s : FollowPathAndAggro) (w : World) (f : Int)
    (hf : s.forced_index = some f) :
    get_current_index s w =
      some (_clamp f 0 (max 0 ((get_waypoints s).length - 1))) := by
  unfold get_current_index
  rw [hf]

/-- `_maybe_log_stats` only rewrites the stats fields. -/
theorem _maybe_log_stats_eq (s : FollowPathAndAggro) (w : World) :
    ∃ q c1 c2 c3, _maybe_log_stats s w =
      { s with stats_start_time := q, enemy_array_fetches := c1,
               change_target_calls := c2, move_calls := c3 } := by
  unfold _maybe_log_stats
  split
  · exact ⟨_, _, _, _, rfl⟩
  · exact ⟨s.stats_start_time, s.enemy_array_fetches, s.change_target_calls,
      s.move_calls, rfl⟩

theorem trigger_effects (t : ℚ) (p : Pt) (b : BlessState) :
    countChangeTarget (trigger_blessing_at t p b).2 = 0
    ∧ countPlayerMove (trigger_blessing_at t p b).2 = 0 := by
  unfold trigger_blessing_at
  split
  · exact ⟨rfl, rfl⟩
  · split
    · exact ⟨rfl, rfl⟩
    · split
      · exact ⟨rfl, rfl⟩
      · exact ⟨rfl, rfl⟩

/-- The blessing loop only rewrites the status message of the controller, and
issues no targeting or movement command. -/
theorem blessingLoop_eq (s : FollowPathAndAggro) (b : BlessState) (w : World)
    (pts : List Pt) :
    ∃ st b' eff, blessingLoop s b w pts = ({ s with status_message := st }, b', eff)
      ∧ countChangeTarget eff = 0 ∧ countPlayerMove eff = 0 := by
  induction pts with
  | nil => exact ⟨s.status_message, b, [], rfl, rfl, rfl⟩
  | cons p rest ih =>
    unfold blessingLoop
    split
    · exact ih
    · split
      · exact ⟨.nearBlessingPoint p, (trigger_blessing_at w.time_s p b).1,
          (trigger_blessing_at w.time_s p b).2, rfl,
          (trigger_effects w.time_s p b).1, (trigger_effects w.time_s p b).2⟩
      · exact ih

theorem _find_nearest_fst_congr (s t : FollowPathAndAggro) (w : World)
    (h : aggroFilter s w = aggroFilter t w) :
    (_find_nearest_enemy s w).1 = (_find_nearest_enemy t w).1 := by
  have h2 : aggroFilter { s with enemy_array_fetches := s.enemy_array_fetches + 1 } w
      = aggroFilter { t with enemy_array_fetches := t.enemy_array_fetches + 1 } w := h
  simp only [_find_nearest_enemy]
  rw [h2]
  cases sortByKey (fun e => distSq w.playerPos (w.agentPos e))
      (aggroFilter { t with enemy_array_fetches := t.enemy_array_fetches + 1 } w) with
  | nil => rfl
  | cons e r => rfl

/-- The scan outcome ignores the stats fields and the status message. -/
theorem scanResult_frame (s : FollowPathAndAggro) (w : World) (q : ℚ)
    (c1 c2 c3 : Nat) (st : StatusMsg) :
    scanResult { s with stats_start_time := q, enemy_array_fetches := c1,
                        change_target_calls := c2, move_calls := c3,
                        status_message := st } w = scanResult s w := by
  unfold scanResult
  have hfires : scan_fires { s with stats_start_time := q, enemy_array_fetches := c1,
                                    change_target_calls := c2, move_calls := c3,
                                    status_message := st } w = scan_fires s w := rfl
  rw [hfires]
  split
  · exact _find_nearest_fst_congr _ _ w rfl
  · rfl

/-- `scanStateAfter` only rewrites the four scan fields, and leaves the answer
in `last_scanned_enemy`. -/
theorem scanStateAfter_eq (s : FollowPathAndAggro) (w : World) :
    ∃ q t c, scanStateAfter s w =
      { s with last_scanned_enemy := scanResult s w, last_scan_pos := q,
               enemy_scan_timer := t, enemy_array_fetches := c } := by
  unfold scanStateAfter
  split
  · exact ⟨_, _, _, rfl⟩
  · next hf =>
    refine ⟨s.last_scan_pos, s.enemy_scan_timer, s.enemy_array_fetches, ?_⟩
    unfold scanResult
    rw [if_neg hf]

/-! #### Field frame lemmas: `_maybe_log_stats`, `blessingLoop` and
`scanStateAfter` leave every field outside their own footprint unchanged. -/

theorem maybe_log_frame {α : Type} (f : FollowPathAndAggro → α)
    (hf : ∀ (s : FollowPathAndAggro) (q : ℚ) (c1 c2 c3 : Nat),
      f { s with stats_start_time := q, enemy_array_fetches := c1,
                 change_target_calls := c2, move_calls := c3 } = f s)
    (s : FollowPathAndAggro) (w : World) : f (_maybe_log_stats s w) = f s := by
  obtain ⟨q, c1, c2, c3, h⟩ := _maybe_log_stats_eq s w
  rw [h, hf]

theorem blessingLoop_frame {α : Type} (f : FollowPathAndAggro → α)
    (hf : ∀ (s : FollowPathAndAggro) (st : StatusMsg),
      f { s with status_message := st } = f s)
    (s : FollowPathAndAggro) (b : BlessState) (w : World) (pts : List Pt) :
    f (blessingLoop s b w pts).1 = f s := by
  obtain ⟨st, b2, eff, h, _, _⟩ := blessingLoop_eq s b w pts
  rw [h, hf]

theorem scanStateAfter_frame {α : Type} (f : FollowPathAndAggro → α)
    (hf : ∀ (s : FollowPathAndAggro) (r : Option Nat) (p : Pt) (t c : Nat),
      f { s with last_scanned_enemy := r, last_scan_pos := p,
                 enemy_scan_timer := t, enemy_array_fetches := c } = f s)
    (s : FollowPathAndAggro) (w : World) : f (scanStateAfter s w) = f s := by
  obtain ⟨p, t, c, h⟩ := scanStateAfter_eq s w
  rw [h, hf]

@[simp] theorem ml_path_handler (s : FollowPathAndAggro) (w : World) :
    (_maybe_log_stats s w).path_handler = s.path_handler :=
  maybe_log_frame (fun x => x.path_handler) (fun _ _ _ _ _ => rfl) s w

@[simp] theorem ml_follow_handler (s : FollowPathAndAggro) (w : World) :
    (_maybe_log_stats s w).follow_handler = s.follow_handler :=
  maybe_log_frame (fun x => x.follow_handler) (fun _ _ _ _ _ => rfl) s w

@[simp] theorem ml_aggro_range (s : FollowPathAndAggro) (w : World) :
    (_maybe_log_stats s w).aggro_range = s.aggro_range :=
  maybe_log_frame (fun x => x.aggro_range) (fun _ _ _ _ _ => rfl) s w

@[simp] theorem ml_last_scanned_enemy (s : FollowPathAndAggro) (w : World) :
    (_maybe_log_stats s w).last_scanned_enemy = s.last_scanned_enemy :=
  maybe_log_frame (fun x => x.last_scanned_enemy) (fun _ _ _ _ _ => rfl) s w

@[simp] theorem ml_scan_move_thresh (s : FollowPathAndAggro) (w : World) :
    (_maybe_log_stats s w).scan_move_thresh = s.scan_move_thresh :=
  maybe_log_frame (fun x => x.scan_move_thresh) (fun _ _ _ _ _ => rfl) s w

@[simp] theorem ml_last_scan_pos (s : FollowPathAndAggro) (w : World) :
    (_maybe_log_stats s w).last_scan_pos = s.last_scan_pos :=
  maybe_log_frame (fun x => x.last_scan_pos) (fun _ _ _ _ _ => rfl) s w

@[simp] theorem ml_scan_interval_ms (s : FollowPathAndAggro) (w : World) :
    (_maybe_log_stats s w).scan_interval_ms = s.scan_interval_ms :=
  maybe_log_frame (fun x => x.scan_interval_ms) (fun _ _ _ _ _ => rfl) s w

@[simp] theorem ml_enemy_scan_timer (s : FollowPathAndAggro) (w : World) :
    (_maybe_log_stats s w).enemy_scan_timer = s.enemy_scan_timer :=
  maybe_log_frame (fun x => x.enemy_scan_timer) (fun _ _ _ _ _ => rfl) s w

@[simp] theorem ml_last_target_id (s : FollowPathAndAggro) (w : World) :
    (_maybe_log_stats s w).last_target_id = s.last_target_id :=
  maybe_log_frame (fun x => x.last_target_id) (fun _ _ _ _ _ => rfl) s w

@[simp] theorem ml_last_move_target (s : FollowPathAndAggro) (w : World) :
    (_maybe_log_stats s w).last_move_target = s.last_move_target :=
  maybe_log_frame (fun x => x.last_move_target) (fun _ _ _ _ _ => rfl) s w

@[simp] theorem ml_stats_interval_secs (s : FollowPathAndAggro) (w : World) :
    (_maybe_log_stats s w).stats_interval_secs = s.stats_interval_secs :=
  maybe_log_frame (fun x => x.stats_interval_secs) (fun _ _ _ _ _ => rfl) s w

@[simp] theorem ml_last_enemy_check (s : FollowPathAndAggro) (w : World) :
    (_maybe_log_stats s w).last_enemy_check = s.last_enemy_check :=
  maybe_log_frame (fun x => x.last_enemy_check) (fun _ _ _ _ _ => rfl) s w

@[simp] theorem ml_current_target_enemy (s : FollowPathAndAggro) (w : World) :
    (_maybe_log_stats s w).current_target_enemy = s.current_target_enemy :=
  maybe_log_frame (fun x => x.current_target_enemy) (fun _ _ _ _ _ => rfl) s w

@[simp] theorem ml_mode (s : FollowPathAndAggro) (w : World) :
    (_maybe_log_stats s w).mode = s.mode :=
  maybe_log_frame (fun x => x.mode) (fun _ _ _ _ _ => rfl) s w

@[simp] theorem ml_current_path_point (s : FollowPathAndAggro) (w : World) :
    (_maybe_log_stats s w).current_path_point = s.current_path_point :=
  maybe_log_frame (fun x => x.current_path_point) (fun _ _ _ _ _ => rfl) s w

@[simp] theorem ml_status_message (s : FollowPathAndAggro) (w : World) :
    (_maybe_log_stats s w).status_message = s.status_message :=
  maybe_log_frame (fun x => x.status_message) (fun _ _ _ _ _ => rfl) s w

@[simp] theorem ml_external_waypoints (s : FollowPathAndAggro) (w : World) :
    (_maybe_log_stats s w).external_waypoints = s.external_waypoints :=
  maybe_log_frame (fun x => x.external_waypoints) (fun _ _ _ _ _ => rfl) s w

@[simp] theorem ml_fsm_explorable_waypoints (s : FollowPathAndAggro) (w : World) :
    (_maybe_log_stats s w).fsm_explorable_waypoints = s.fsm_explorable_waypoints :=
  maybe_log_frame (fun x => x.fsm_explorable_waypoints) (fun _ _ _ _ _ => rfl) s w

@[simp] theorem ml_forced_index (s : FollowPathAndAggro) (w : World) :
    (_maybe_log_stats s w).forced_index = s.forced_index :=
  maybe_log_frame (fun x => x.forced_index) (fun _ _ _ _ _ => rfl) s w

@[simp] theorem ml_debug_hold (s : FollowPathAndAggro) (w : World) :
    (_maybe_log_stats s w).debug_hold = s.debug_hold :=
  maybe_log_frame (fun x => x.debug_hold) (fun _ _ _ _ _ => rfl) s w

@[simp] theorem ml_early_advance_dist (s : FollowPathAndAggro) (w : World) :
    (_maybe_log_stats s w).early_advance_dist = s.early_advance_dist :=
  maybe_log_frame (fun x => x.early_advance_dist) (fun _ _ _ _ _ => rfl) s w

@[simp] theorem ml_combat_reach_dist (s : FollowPathAndAggro) (w : World) :
    (_maybe_log_stats s w).combat_reach_dist = s.combat_reach_dist :=
  maybe_log_frame (fun x => x.combat_reach_dist) (fun _ _ _ _ _ => rfl) s w

@[simp] theorem bl_path_handler (s : FollowPathAndAggro) (b : BlessState) (w : World)
    (pts : List Pt) : (blessingLoop s b w pts).1.path_handler = s.path_handler :=
  blessingLoop_frame (fun x => x.path_handler) (fun _ _ => rfl) s b w pts

@[simp] theorem bl_follow_handler (s : FollowPathAndAggro) (b : BlessState) (w : World)
    (pts : List Pt) : (blessingLoop s b w pts).1.follow_handler = s.follow_handler :=
  blessingLoop_frame (fun x => x.follow_handler) (fun _ _ => rfl) s b w pts

@[simp] theorem bl_aggro_range (s : FollowPathAndAggro) (b : BlessState) (w : World)
    (pts : List Pt) : (blessingLoop s b w pts).1.aggro_range = s.aggro_range :=
  blessingLoop_frame (fun x => x.aggro_range) (fun _ _ => rfl) s b w pts

@[simp] theorem bl_last_scanned_enemy (s : FollowPathAndAggro) (b : BlessState) (w : World)
    (pts : List Pt) : (blessingLoop s b w pts).1.last_scanned_enemy = s.last_scanned_enemy :=
  blessingLoop_frame (fun x => x.last_scanned_enemy) (fun _ _ => rfl) s b w pts

@[simp] theorem bl_scan_move_thresh (s : FollowPathAndAggro) (b : BlessState) (w : World)
    (pts : List Pt) : (blessingLoop s b w pts).1.scan_move_thresh = s.scan_move_thresh :=
  blessingLoop_frame (fun x => x.scan_move_thresh) (fun _ _ => rfl) s b w pts

@[simp] theorem bl_last_scan_pos (s : FollowPathAndAggro) (b : BlessState) (w : World)
    (pts : List Pt) : (blessingLoop s b w pts).1.last_scan_pos = s.last_scan_pos :=
  blessingLoop_frame (fun x => x.last_scan_pos) (fun _ _ => rfl) s b w pts

@[simp] theorem bl_scan_interval_ms (s : FollowPathAndAggro) (b : BlessState) (w : World)
    (pts : List Pt) : (blessingLoop s b w pts).1.scan_interval_ms = s.scan_interval_ms :=
  blessingLoop_frame (fun x => x.scan_interval_ms) (fun _ _ => rfl) s b w pts

@[simp] theorem bl_enemy_scan_timer (s : FollowPathAndAggro) (b : BlessState) (w : World)
    (pts : List Pt) : (blessingLoop s b w pts).1.enemy_scan_timer = s.enemy_scan_timer :=
  blessingLoop_frame (fun x => x.enemy_scan_timer) (fun _ _ => rfl) s b w pts

@[simp] theorem bl_last_target_id (s : FollowPathAndAggro) (b : BlessState) (w : World)
    (pts : List Pt) : (blessingLoop s b w pts).1.last_target_id = s.last_target_id :=
  blessingLoop_frame (fun x => x.last_target_id) (fun _ _ => rfl) s b w pts

@[simp] theorem bl_last_move_target (s : FollowPathAndAggro) (b : BlessState) (w : World)
    (pts : List Pt) : (blessingLoop s b w pts).1.last_move_target = s.last_move_target :=
  blessingLoop_frame (fun x => x.last_move_target) (fun _ _ => rfl) s b w pts

@[simp] theorem bl_stats_start_time (s : FollowPathAndAggro) (b : BlessState) (w : World)
    (pts : List Pt) : (blessingLoop s b w pts).1.stats_start_time = s.stats_start_time :=
  blessingLoop_frame (fun x => x.stats_start_time) (fun _ _ => rfl) s b w pts

@[simp] theorem bl_enemy_array_fetches (s : FollowPathAndAggro) (b : BlessState) (w : World)
    (pts : List Pt) : (blessingLoop s b w pts).1.enemy_array_fetches = s.enemy_array_fetches :=
  blessingLoop_frame (fun x => x.enemy_array_fetches) (fun _ _ => rfl) s b w pts

@[simp] theorem bl_change_target_calls (s : FollowPathAndAggro) (b : BlessState) (w : World)
    (pts : List Pt) : (blessingLoop s b w pts).1.change_target_calls = s.change_target_calls :=
  blessingLoop_frame (fun x => x.change_target_calls) (fun _ _ => rfl) s b w pts

@[simp] theorem bl_move_calls (s : FollowPathAndAggro) (b : BlessState) (w : World)
    (pts : List Pt) : (blessingLoop s b w pts).1.move_calls = s.move_calls :=
  blessingLoop_frame (fun x => x.move_calls) (fun _ _ => rfl) s b w pts

@[simp] theorem bl_stats_interval_secs (s : FollowPathAndAggro) (b : BlessState) (w : World)
    (pts : List Pt) : (blessingLoop s b w pts).1.stats_interval_secs = s.stats_interval_secs :=
  blessingLoop_frame (fun x => x.stats_interval_secs) (fun _ _ => rfl) s b w pts

@[simp] theorem bl_last_enemy_check (s : FollowPathAndAggro) (b : BlessState) (w : World)
    (pts : List Pt) : (blessingLoop s b w pts).1.last_enemy_check = s.last_enemy_check :=
  blessingLoop_frame (fun x => x.last_enemy_check) (fun _ _ => rfl) s b w pts

@[simp] theorem bl_current_target_enemy (s : FollowPathAndAggro) (b : BlessState) (w : World)
    (pts : List Pt) : (blessingLoop s b w pts).1.current_target_enemy = s.current_target_enemy :=
  blessingLoop_frame (fun x => x.current_target_enemy) (fun _ _ => rfl) s b w pts

@[simp] theorem bl_mode (s : FollowPathAndAggro) (b : BlessState) (w : World)
    (pts : List Pt) : (blessingLoop s b w pts).1.mode = s.mode :=
  blessingLoop_frame (fun x => x.mode) (fun _ _ => rfl) s b w pts

@[simp] theorem bl_current_path_point (s : FollowPathAndAggro) (b : BlessState) (w : World)
    (pts : List Pt) : (blessingLoop s b w pts).1.current_path_point = s.current_path_point :=
  blessingLoop_frame (fun x => x.current_path_point) (fun _ _ => rfl) s b w pts

@[simp] theorem bl_external_waypoints (s : FollowPathAndAggro) (b : BlessState) (w : World)
    (pts : List Pt) : (blessingLoop s b w pts).1.external_waypoints = s.external_waypoints :=
  blessingLoop_frame (fun x => x.external_waypoints) (fun _ _ => rfl) s b w pts

@[simp] theorem bl_fsm_explorable_waypoints (s : FollowPathAndAggro) (b : BlessState) (w : World)
    (pts : List Pt) : (blessingLoop s b w pts).1.fsm_explorable_waypoints = s.fsm_explorable_waypoints :=
  blessingLoop_frame (fun x => x.fsm_explorable_waypoints) (fun _ _ => rfl) s b w pts

@[simp] theorem bl_forced_index (s : FollowPathAndAggro) (b : BlessState) (w : World)
    (pts : List Pt) : (blessingLoop s b w pts).1.forced_index = s.forced_index :=
  blessingLoop_frame (fun x => x.forced_index) (fun _ _ => rfl) s b w pts

@[simp] theorem bl_debug_hold (s : FollowPathAndAggro) (b : BlessState) (w : World)
    (pts : List Pt) : (blessingLoop s b w pts).1.debug_hold = s.debug_hold :=
  blessingLoop_frame (fun x => x.debug_hold) (fun _ _ => rfl) s b w pts

@[simp] theorem bl_early_advance_dist (s : FollowPathAndAggro) (b : BlessState) (w : World)
    (pts : List Pt) : (blessingLoop s b w pts).1.early_advance_dist = s.early_advance_dist :=
  blessingLoop_frame (fun x => x.early_advance_dist) (fun _ _ => rfl) s b w pts

@[simp] theorem bl_combat_reach_dist (s : FollowPathAndAggro) (b : BlessState) (w : World)
    (pts : List Pt) : (blessingLoop s b w pts).1.combat_reach_dist = s.combat_reach_dist :=
  blessingLoop_frame (fun x => x.combat_reach_dist) (fun _ _ => rfl) s b w pts

@[simp] theorem ssa_path_handler (s : FollowPathAndAggro) (w : World) :
    (scanStateAfter s w).path_handler = s.path_handler :=
  scanStateAfter_frame (fun x => x.path_handler) (fun _ _ _ _ _ => rfl) s w

@[simp] theorem ssa_follow_handler (s : FollowPathAndAggro) (w : World) :
    (scanStateAfter s w).follow_handler = s.follow_handler :=
  scanStateAfter_frame (fun x => x.follow_handler) (fun _ _ _ _ _ => rfl) s w

@[simp] theorem ssa_aggro_range (s : FollowPathAndAggro) (w : World) :
    (scanStateAfter s w).aggro_range = s.aggro_range :=
  scanStateAfter_frame (fun x => x.aggro_range) (fun _ _ _ _ _ => rfl) s w

@[simp] theorem ssa_scan_move_thresh (s : FollowPathAndAggro) (w : World) :
    (scanStateAfter s w).scan_move_thresh = s.scan_move_thresh :=
  scanStateAfter_frame (fun x => x.scan_move_thresh) (fun _ _ _ _ _ => rfl) s w

@[simp] theorem ssa_scan_interval_ms (s : FollowPathAndAggro) (w : World) :
    (scanStateAfter s w).scan_interval_ms = s.scan_interval_ms :=
  scanStateAfter_frame (fun x => x.scan_interval_ms) (fun _ _ _ _ _ => rfl) s w

@[simp] theorem ssa_last_target_id (s : FollowPathAndAggro) (w : World) :
    (scanStateAfter s w).last_target_id = s.last_target_id :=
  scanStateAfter_frame (fun x => x.last_target_id) (fun _ _ _ _ _ => rfl) s w

@[simp] theorem ssa_last_move_target (s : FollowPathAndAggro) (w : World) :
    (scanStateAfter s w).last_move_target = s.last_move_target :=
  scanStateAfter_frame (fun x => x.last_move_target) (fun _ _ _ _ _ => rfl) s w

@[simp] theorem ssa_stats_start_time (s : FollowPathAndAggro) (w : World) :
    (scanStateAfter s w).stats_start_time = s.stats_start_time :=
  scanStateAfter_frame (fun x => x.stats_start_time) (fun _ _ _ _ _ => rfl) s w

@[simp] theorem ssa_change_target_calls (s : FollowPathAndAggro) (w : World) :
    (scanStateAfter s w).change_target_calls = s.change_target_calls :=
  scanStateAfter_frame (fun x => x.change_target_calls) (fun _ _ _ _ _ => rfl) s w

@[simp] theorem ssa_move_calls (s : FollowPathAndAggro) (w : World) :
    (scanStateAfter s w).move_calls = s.move_calls :=
  scanStateAfter_frame (fun x => x.move_calls) (fun _ _ _ _ _ => rfl) s w

@[simp] theorem ssa_stats_interval_secs (s : FollowPathAndAggro) (w : World) :
    (scanStateAfter s w).stats_interval_secs = s.stats_interval_secs :=
  scanStateAfter_frame (fun x => x.stats_interval_secs) (fun _ _ _ _ _ => rfl) s w

@[simp] theorem ssa_last_enemy_check (s : FollowPathAndAggro) (w : World) :
    (scanStateAfter s w).last_enemy_check = s.last_enemy_check :=
  scanStateAfter_frame (fun x => x.last_enemy_check) (fun _ _ _ _ _ => rfl) s w

@[simp] theorem ssa_current_target_enemy (s : FollowPathAndAggro) (w : World) :
    (scanStateAfter s w).current_target_enemy = s.current_target_enemy :=
  scanStateAfter_frame (fun x => x.current_target_enemy) (fun _ _ _ _ _ => rfl) s w

@[simp] theorem ssa_mode (s : FollowPathAndAggro) (w : World) :
    (scanStateAfter s w).mode = s.mode :=
  scanStateAfter_frame (fun x => x.mode) (fun _ _ _ _ _ => rfl) s w

@[simp] theorem ssa_current_path_point (s : FollowPathAndAggro) (w : World) :
    (scanStateAfter s w).current_path_point = s.current_path_point :=
  scanStateAfter_frame (fun x => x.current_path_point) (fun _ _ _ _ _ => rfl) s w

@[simp] theorem ssa_status_message (s : FollowPathAndAggro) (w : World) :
    (scanStateAfter s w).status_message = s.status_message :=
  scanStateAfter_frame (fun x => x.status_message) (fun _ _ _ _ _ => rfl) s w

@[simp] theorem ssa_external_waypoints (s : FollowPathAndAggro) (w : World) :
    (scanStateAfter s w).external_waypoints = s.external_waypoints :=
  scanStateAfter_frame (fun x => x.external_waypoints) (fun _ _ _ _ _ => rfl) s w

@[simp] theorem ssa_fsm_explorable_waypoints (s : FollowPathAndAggro) (w : World) :
    (scanStateAfter s w).fsm_explorable_waypoints = s.fsm_explorable_waypoints :=
  scanStateAfter_frame (fun x => x.fsm_explorable_waypoints) (fun _ _ _ _ _ => rfl) s w

@[simp] theorem ssa_forced_index (s : FollowPathAndAggro) (w : World) :
    (scanStateAfter s w).forced_index = s.forced_index :=
  scanStateAfter_frame (fun x => x.forced_index) (fun _ _ _ _ _ => rfl) s w

@[simp] theorem ssa_debug_hold (s : FollowPathAndAggro) (w : World) :
    (scanStateAfter s w).debug_hold = s.debug_hold :=
  scanStateAfter_frame (fun x => x.debug_hold) (fun _ _ _ _ _ => rfl) s w

@[simp] theorem ssa_early_advance_dist (s : FollowPathAndAggro) (w : World) :
    (scanStateAfter s w).early_advance_dist = s.early_advance_dist :=
  scanStateAfter_frame (fun x => x.early_advance_dist) (fun _ _ _ _ _ => rfl) s w

@[simp] theorem ssa_combat_reach_dist (s : FollowPathAndAggro) (w : World) :
    (scanStateAfter s w).combat_reach_dist = s.combat_reach_dist :=
  scanStateAfter_frame (fun x => x.combat_reach_dist) (fun _ _ _ _ _ => rfl) s w

theorem ssa_last_scanned (s : FollowPathAndAggro) (w : World) :
    (scanStateAfter s w).last_scanned_enemy = scanResult s w := by
  obtain ⟨p, t, c, h⟩ := scanStateAfter_eq s w
  rw [h]

theorem scanResult_congr (s t : FollowPathAndAggro) (w : World)
    (h1 : s.last_scan_pos = t.last_scan_pos)
    (h2 : s.scan_move_thresh = t.scan_move_thresh)
    (h3 : s.enemy_scan_timer = t.enemy_scan_timer)
    (h4 : s.scan_interval_ms = t.scan_interval_ms)
    (h5 : s.last_scanned_enemy = t.last_scanned_enemy)
    (h6 : s.aggro_range = t.aggro_range) :
    scanResult s w = scanResult t w := by
  have hfires : scan_fires s w = scan_fires t w := by
    unfold scan_fires
    rw [h1, h2, h3, h4]
  unfold scanResult
  rw [hfires, h5]
  split
  · exact _find_nearest_fst_congr s t w (by unfold aggroFilter; rw [h6])
  · rfl

theorem _advance_index_only_eq (s : FollowPathAndAggro) (w : World) :
    ∃ ph cp, (_advance_index_only s w).2 =
      { s with path_handler := ph, current_path_point := cp } := by
  simp only [_advance_index_only]
  repeat' split
  all_goals exact ⟨_, _, rfl⟩

/-- The combat waypoint-reach block only rewrites the cursor fields and the
status message. -/
theorem combatReachCheck_eq (s : FollowPathAndAggro) (w : World) :
    ∃ ph cp st, combatReachCheck s w =
      { s with path_handler := ph, current_path_point := cp, status_message := st } := by
  obtain ⟨ph, cp, hadv⟩ := _advance_index_only_eq s w
  unfold combatReachCheck
  split
  · exact ⟨_, _, _, rfl⟩
  · split
    · rcases hao : _advance_index_only s w with ⟨ok, s2⟩
      rw [hao] at hadv
      simp only at hadv
      subst hadv
      cases ok <;> exact ⟨_, _, _, rfl⟩
    · exact ⟨_, _, _, rfl⟩

theorem combatReachCheck_frame {α : Type} (f : FollowPathAndAggro → α)
    (hf : ∀ (s : FollowPathAndAggro) (ph : PathHandler) (cp : Option Pt)
      (st : StatusMsg), f { s with path_handler := ph, current_path_point := cp,
                                   status_message := st } = f s)
    (s : FollowPathAndAggro) (w : World) : f (combatReachCheck s w) = f s := by
  obtain ⟨ph, cp, st, h⟩ := combatReachCheck_eq s w
  rw [h, hf]

@[simp] theorem crc_follow_handler (s : FollowPathAndAggro) (w : World) :
    (combatReachCheck s w).follow_handler = s.follow_handler :=
  combatReachCheck_frame (fun x => x.follow_handler) (fun _ _ _ _ => rfl) s w

@[simp] theorem crc_aggro_range (s : FollowPathAndAggro) (w : World) :
    (combatReachCheck s w).aggro_range = s.aggro_range :=
  combatReachCheck_frame (fun x => x.aggro_range) (fun _ _ _ _ => rfl) s w

@[simp] theorem crc_last_scanned_enemy (s : FollowPathAndAggro) (w : World) :
    (combatReachCheck s w).last_scanned_enemy = s.last_scanned_enemy :=
  combatReachCheck_frame (fun x => x.last_scanned_enemy) (fun _ _ _ _ => rfl) s w

@[simp] theorem crc_scan_move_thresh (s : FollowPathAndAggro) (w : World) :
    (combatReachCheck s w).scan_move_thresh = s.scan_move_thresh :=
  combatReachCheck_frame (fun x => x.scan_move_thresh) (fun _ _ _ _ => rfl) s w

@[simp] theorem crc_last_scan_pos (s : FollowPathAndAggro) (w : World) :
    (combatReachCheck s w).last_scan_pos = s.last_scan_pos :=
  combatReachCheck_frame (fun x => x.last_scan_pos) (fun _ _ _ _ => rfl) s w

@[simp] theorem crc_scan_interval_ms (s : FollowPathAndAggro) (w : World) :
    (combatReachCheck s w).scan_interval_ms = s.scan_interval_ms :=
  combatReachCheck_frame (fun x => x.scan_interval_ms) (fun _ _ _ _ => rfl) s w

@[simp] theorem crc_enemy_scan_timer (s : FollowPathAndAggro) (w : World) :
    (combatReachCheck s w).enemy_scan_timer = s.enemy_scan_timer :=
  combatReachCheck_frame (fun x => x.enemy_scan_timer) (fun _ _ _ _ => rfl) s w

@[simp] theorem crc_last_target_id (s : FollowPathAndAggro) (w : World) :
    (combatReachCheck s w).last_target_id = s.last_target_id :=
  combatReachCheck_frame (fun x => x.last_target_id) (fun _ _ _ _ => rfl) s w

@[simp] theorem crc_last_move_target (s : FollowPathAndAggro) (w : World) :
    (combatReachCheck s w).last_move_target = s.last_move_target :=
  combatReachCheck_frame (fun x => x.last_move_target) (fun _ _ _ _ => rfl) s w

@[simp] theorem crc_stats_start_time (s : FollowPathAndAggro) (w : World) :
    (combatReachCheck s w).stats_start_time = s.stats_start_time :=
  combatReachCheck_frame (fun x => x.stats_start_time) (fun _ _ _ _ => rfl) s w

@[simp] theorem crc_enemy_array_fetches (s : FollowPathAndAggro) (w : World) :
    (combatReachCheck s w).enemy_array_fetches = s.enemy_array_fetches :=
  combatReachCheck_frame (fun x => x.enemy_array_fetches) (fun _ _ _ _ => rfl) s w

@[simp] theorem crc_change_target_calls (s : FollowPathAndAggro) (w : World) :
    (combatReachCheck s w).change_target_calls = s.change_target_calls :=
  combatReachCheck_frame (fun x => x.change_target_calls) (fun _ _ _ _ => rfl) s w

@[simp] theorem crc_move_calls (s : FollowPathAndAggro) (w : World) :
    (combatReachCheck s w).move_calls = s.move_calls :=
  combatReachCheck_frame (fun x => x.move_calls) (fun _ _ _ _ => rfl) s w

@[simp] theorem crc_stats_interval_secs (s : FollowPathAndAggro) (w : World) :
    (combatReachCheck s w).stats_interval_secs = s.stats_interval_secs :=
  combatReachCheck_frame (fun x => x.stats_interval_secs) (fun _ _ _ _ => rfl) s w

@[simp] theorem crc_last_enemy_check (s : FollowPathAndAggro) (w : World) :
    (combatReachCheck s w).last_enemy_check = s.last_enemy_check :=
  combatReachCheck_frame (fun x => x.last_enemy_check) (fun _ _ _ _ => rfl) s w

@[simp] theorem crc_current_target_enemy (s : FollowPathAndAggro) (w : World) :
    (combatReachCheck s w).current_target_enemy = s.current_target_enemy :=
  combatReachCheck_frame (fun x => x.current_target_enemy) (fun _ _ _ _ => rfl) s w

@[simp] theorem crc_mode (s : FollowPathAndAggro) (w : World) :
    (combatReachCheck s w).mode = s.mode :=
  combatReachCheck_frame (fun x => x.mode) (fun _ _ _ _ => rfl) s w

@[simp] theorem crc_external_waypoints (s : FollowPathAndAggro) (w : World) :
    (combatReachCheck s w).external_waypoints = s.external_waypoints :=
  combatReachCheck_frame (fun x => x.external_waypoints) (fun _ _ _ _ => rfl) s w

@[simp] theorem crc_fsm_explorable_waypoints (s : FollowPathAndAggro) (w : World) :
    (combatReachCheck s w).fsm_explorable_waypoints = s.fsm_explorable_waypoints :=
  combatReachCheck_frame (fun x => x.fsm_explorable_waypoints) (fun _ _ _ _ => rfl) s w

@[simp] theorem crc_forced_index (s : FollowPathAndAggro) (w : World) :
    (combatReachCheck s w).forced_index = s.forced_index :=
  combatReachCheck_frame (fun x => x.forced_index) (fun _ _ _ _ => rfl) s w

@[simp] theorem crc_debug_hold (s : FollowPathAndAggro) (w : World) :
    (combatReachCheck s w).debug_hold = s.debug_hold :=
  combatReachCheck_frame (fun x => x.debug_hold) (fun _ _ _ _ => rfl) s w

@[simp] theorem crc_early_advance_dist (s : FollowPathAndAggro) (w : World) :
    (combatReachCheck s w).early_advance_dist = s.early_advance_dist :=
  combatReachCheck_frame (fun x => x.early_advance_dist) (fun _ _ _ _ => rfl) s w

@[simp] theorem crc_combat_reach_dist (s : FollowPathAndAggro) (w : World) :
    (combatReachCheck s w).combat_reach_dist = s.combat_reach_dist :=
  combatReachCheck_frame (fun x => x.combat_reach_dist) (fun _ _ _ _ => rfl) s w

theorem countChangeTarget_append (a b : List Effect) :
    countChangeTarget (a ++ b) = countChangeTarget a + countChangeTarget b := by
  unfold countChangeTarget
  rw [List.filter_append, List.length_append]

theorem countPlayerMove_append (a b : List Effect) :
    countPlayerMove (a ++ b) = countPlayerMove a + countPlayerMove b := by
  unfold countPlayerMove
  rw [List.filter_append, List.length_append]

/-- What `_advance_index_and_move` does when the handler holds index `i`, no
forced index is pending, and a next waypoint exists. -/
theorem advance_and_move_spec (s : FollowPathAndAggro) (w : World) (i : Int)
    (hf : s.forced_index = none) (hi : s.path_handler.index = some i)
    (hext : s.external_waypoints ≠ [])
    (hlt : i + 1 < (s.external_waypoints.length : Int)) :
    _advance_index_and_move s w =
      (true,
       { s with path_handler := { s.path_handler with index := some (i + 1) },
                current_path_point := some (pyIdx s.external_waypoints (i + 1)),
                follow_handler := s.follow_handler.move_to_waypoint
                  (pyIdx s.external_waypoints (i + 1)),
                status_message := .flowingTo (i + 1) (pyIdx s.external_waypoints (i + 1)) },
       [Effect.moveToWaypoint (pyIdx s.external_waypoints (i + 1))]) := by
  simp only [_advance_index_and_move, get_waypoints_ext s hext,
    get_current_index_handler s w i hf hi]
  rw [if_neg hext, if_neg (not_le.mpr hlt)]

/-- The fluid-advance branch of `_advance_to_next_point`: following, a tracked
waypoint within `early_advance_dist`, no known hostile, no hold and no forced
index — the controller advances and moves at once. -/
theorem advance_fluid (s : FollowPathAndAggro) (w : World) (wp : Pt) (i : Int)
    (hhold : s.debug_hold = false) (hforced : s.forced_index = none)
    (hfol : s.follow_handler.following = true) (hcp : s.current_path_point = some wp)
    (hnoen : s.last_scanned_enemy = none)
    (hdist : distLe w.playerPos wp ((s.early_advance_dist : ℚ)) = true)
    (hi : s.path_handler.index = some i) (hext : s.external_waypoints ≠ [])
    (hlt : i + 1 < (s.external_waypoints.length : Int)) :
    _advance_to_next_point s w =
      ({ s with path_handler := { s.path_handler with index := some (i + 1) },
                current_path_point := some (pyIdx s.external_waypoints (i + 1)),
                follow_handler := s.follow_handler.move_to_waypoint
                  (pyIdx s.external_waypoints (i + 1)),
                status_message := .flowingTo (i + 1) (pyIdx s.external_waypoints (i + 1)) },
       [Effect.moveToWaypoint (pyIdx s.external_waypoints (i + 1))]) := by
  simp only [_advance_to_next_point, get_waypoints_ext s hext, hhold, hforced, hcp,
    hnoen, hfol, hdist, Option.isSome_none, Option.isNone_none, Bool.false_eq_true,
    if_false, false_and, Bool.not_true, Bool.true_and, if_true,
    advance_and_move_spec s w i hforced hi hext hlt]

/-- `get_waypoints` only reads the explicit cache, the handler's list and the
module-level cache. -/
theorem get_waypoints_congr (a c : FollowPathAndAggro)
    (h1 : a.external_waypoints = c.external_waypoints)
    (h2 : a.path_handler.points = c.path_handler.points)
    (h3 : a.fsm_explorable_waypoints = c.fsm_explorable_waypoints) :
    get_waypoints a = get_waypoints c := by
  simp only [get_waypoints, h1, h2, h3]

/-- A path-mode tick that starts in HOLD with the handler pinned at index 1
keeps hold on, keeps the handler index at 1, leaves the forced index absent
or 1, and does not change the waypoint list. -/
theorem pathTick_hold (s : FollowPathAndAggro) (w : World)
    (hh : s.debug_hold = true) (hi : s.path_handler.index = some 1)
    (hf : s.forced_index = none ∨ s.forced_index = some 1)
    (hw : 2 ≤ (get_waypoints s).length) :
    (pathTick s w).1.debug_hold = true
    ∧ (pathTick s w).1.path_handler.index = some 1
    ∧ ((pathTick s w).1.forced_index = none ∨ (pathTick s w).1.forced_index = some 1)
    ∧ get_waypoints (pathTick s w).1 = get_waypoints s := by
  have hAh : (scanStateAfter s w).debug_hold = true := by simp [hh]
  have hAi : (scanStateAfter s w).path_handler.index = some 1 := by simp [hi]
  have hAW : get_waypoints (scanStateAfter s w) = get_waypoints s :=
    get_waypoints_congr _ _ (by simp) (by simp) (by simp)
  unfold pathTick
  rw [_throttled_scan_eq]
  cases htr : truthyId (scanResult s w) with
  | true =>
    simp only [htr, if_true]
    refine ⟨by simp [hh], by simp [hi], ?_, ?_⟩
    · rcases hf with h | h
      · exact Or.inl (by simp [h])
      · exact Or.inr (by simp [h])
    · exact get_waypoints_congr _ _ (by simp) (by simp) (by simp)
  | false =>
    simp only [htr, Bool.false_eq_true, if_false]
    rcases hf with hfn | hfs
    · have hAf : (scanStateAfter s w).forced_index = none := by simp [hfn]
      have heq : _advance_to_next_point (scanStateAfter s w) w
          = (scanStateAfter s w, []) := by
        simp only [_advance_to_next_point, hAh, if_true, hAf]
      rw [heq]
      exact ⟨hAh, hAi, Or.inl hAf, hAW⟩
    · have hAf : (scanStateAfter s w).forced_index = some 1 := by simp [hfs]
      have hne : ¬ get_waypoints (scanStateAfter s w) = [] := by
        rw [hAW]
        intro h0
        rw [h0] at hw
        simp at hw
      have hidx : _clamp 1 0 (((get_waypoints (scanStateAfter s w)).length : Int) - 1)
          = 1 := by
        rw [hAW]
        simp only [_clamp]
        omega
      simp only [_advance_to_next_point, hAh, if_true, hAf, if_neg hne]
      refine ⟨by simp [hh], by simp [hidx], Or.inl (by simp), ?_⟩
      exact get_waypoints_congr _ _ (by simp) (by simp) (by simp) |>.trans hAW

/-- **C3** (Fluid vs. arrival thresholds): in Path mode with
`early_advance_dist = 375`, the port following, no known hostile after the
tick's throttled scan, and squared distance `90000` (distance 300) to the
tracked waypoint, the tick advances the cursor immediately and commands
movement to the next waypoint — it does not wait for distance ≤ 250. -/
theorem update_mode_path (s : FollowPathAndAggro) (b : BlessState) (w : World)
    (hloot : w.inLooting = false) (hmode : s.mode = Mode.path) :
    update s b w =
      ({ (pathTick (blessingLoop (_maybe_log_stats s w) b w b.points).1 w).1 with
           follow_handler :=
             (pathTick (blessingLoop (_maybe_log_stats s w) b w b.points).1
               w).1.follow_handler.update },
       (blessingLoop (_maybe_log_stats s w) b w b.points).2.1,
       (blessingLoop (_maybe_log_stats s w) b w b.points).2.2
         ++ (pathTick (blessingLoop (_maybe_log_stats s w) b w b.points).1 w).2) := by
  rcases hb : blessingLoop (_maybe_log_stats s w) b w b.points with ⟨s1, b1, e1⟩
  have hm1 : s1.mode = Mode.path := by
    have hcongr := congrArg (fun x => x.1.mode) hb
    simp only [bl_mode, ml_mode] at hcongr
    rw [← hcongr, hmode]
  simp only [update, hloot]
  rw [hb]
  simp only [Bool.false_eq_true, if_false, hm1]

theorem pathTick_noTarget (s : FollowPathAndAggro) (w : World)
    (hscan : scanResult s w = none) :
    pathTick s w = _advance_to_next_point (scanStateAfter s w) w := by
  unfold pathTick
  rw [_throttled_scan_eq]
  simp only [hscan, truthyId, Bool.false_eq_true, if_false]

theorem fluid_advance_before_arrival (s : FollowPathAndAggro) (b : BlessState)
    (w : World) (wp : Pt) (i : Int)
    (hloot : w.inLooting = false) (hmode : s.mode = Mode.path)
    (hhold : s.debug_hold = false) (hforced : s.forced_index = none)
    (hfol : s.follow_handler.following = true)
    (hcp : s.current_path_point = some wp)
    (hi : s.path_handler.index = some i) (hext : s.external_waypoints ≠ [])
    (hlt : i + 1 < (s.external_waypoints.length : Int))
    (hscan : scanResult s w = none)
    (hdist : distSq w.playerPos wp = 90000)
    (hearly : s.early_advance_dist = 375) :
    (update s b w).1.path_handler.index = some (i + 1)
    ∧ (update s b w).1.current_path_point = some (pyIdx s.external_waypoints (i + 1))
    ∧ Effect.moveToWaypoint (pyIdx s.external_waypoints (i + 1)) ∈ (update s b w).2.2 := by
  have hscanM : scanResult (blessingLoop (_maybe_log_stats s w) b w b.points).1 w
      = scanResult s w :=
    scanResult_congr _ _ w (by simp) (by simp) (by simp) (by simp) (by simp) (by simp)
  have hadv := advance_fluid
    (scanStateAfter (blessingLoop (_maybe_log_stats s w) b w b.points).1 w) w wp i
    (by simp [hhold]) (by simp [hforced]) (by simp [hfol]) (by simp [hcp])
    (by rw [ssa_last_scanned]; exact hscanM.trans hscan)
    (by rw [show (scanStateAfter (blessingLoop (_maybe_log_stats s w) b w b.points).1
          w).early_advance_dist = 375 by simp [hearly]]
        unfold distLe
        rw [hdist]
        norm_num)
    (by simp [hi]) (by simpa using hext) (by simpa using hlt)
  rw [update_mode_path s b w hloot hmode,
    pathTick_noTarget _ w (hscanM.trans hscan), hadv]
  refine ⟨by simp, by simp, ?_⟩
  refine List.mem_append_right _ ?_
  refine List.mem_singleton.mpr ?_
  simp

theorem update_mode_combat (s : FollowPathAndAggro) (b : BlessState) (w : World)
    (hloot : w.inLooting = false) (hmode : s.mode = Mode.combat) :
    update s b w =
      ((combatTick (blessingLoop (_maybe_log_stats s w) b w b.points).1 w).1,
       (blessingLoop (_maybe_log_stats s w) b w b.points).2.1,
       (blessingLoop (_maybe_log_stats s w) b w b.points).2.2
         ++ (combatTick (blessingLoop (_maybe_log_stats s w) b w b.points).1 w).2) := by
  rcases hb : blessingLoop (_maybe_log_stats s w) b w b.points with ⟨s1, b1, e1⟩
  have hm1 : s1.mode = Mode.combat := by
    have hcongr := congrArg (fun x => x.1.mode) hb
    simp only [bl_mode, ml_mode] at hcongr
    rw [← hcongr, hmode]
  simp only [update, hloot]
  rw [hb]
  simp only [Bool.false_eq_true, if_false, hm1]

/-- The combat command phase: when the pre-tick target is truthy and alive,
the throttled scan selects a truthy target `t` and its position fetch
succeeds, the tick latches `t` and its integer-rounded position, and issues a
set-target (resp. move) command exactly when the latch did not already hold
that value. -/
theorem combatTick_commands (s : FollowPathAndAggro) (w : World) (t : Nat)
    (halive : (truthyId s.current_target_enemy
        && aliveOf w s.current_target_enemy) = true)
    (hscan : scanResult s w = some t) (ht : ¬ t = 0) (hok : w.agentPosOk t = true) :
    (combatTick s w).1.mode = s.mode
    ∧ (combatTick s w).1.current_target_enemy = some t
    ∧ (combatTick s w).1.last_target_id = some t
    ∧ (combatTick s w).1.last_move_target
        = some (pyInt (w.agentPos t).1, pyInt (w.agentPos t).2)
    ∧ countChangeTarget (combatTick s w).2
        = (if s.last_target_id = some t then 0 else 1)
    ∧ countPlayerMove (combatTick s w).2
        = (if s.last_move_target
             = some (pyInt (w.agentPos t).1, pyInt (w.agentPos t).2) then 0 else 1) := by
  have halive' : (truthyId (combatReachCheck s w).current_target_enemy
      && aliveOf w (combatReachCheck s w).current_target_enemy) = true := by
    rw [crc_current_target_enemy]
    exact halive
  have hscan' : scanResult (combatReachCheck s w) w = some t :=
    Eq.trans (scanResult_congr _ s w (by simp) (by simp) (by simp) (by simp)
      (by simp) (by simp)) hscan
  simp only [combatTick]
  rw [_throttled_scan_eq, halive']
  simp only [Bool.not_true, Bool.false_eq_true, if_false, hscan']
  rw [if_neg ht, hok]
  simp only [Bool.not_true, Bool.false_eq_true, if_false]
  by_cases h1 : s.last_target_id = some t <;>
    by_cases h2 : s.last_move_target
      = some (pyInt (w.agentPos t).1, pyInt (w.agentPos t).2) <;>
    simp only [ssa_last_target_id, crc_last_target_id, ssa_last_move_target,
      crc_last_move_target, h1, h2, ssa_mode, crc_mode, ne_eq, not_true_eq_false,
      not_false_eq_true, if_pos, if_neg, if_true, if_false] <;>
    simp [countChangeTarget, countPlayerMove, ssa_mode, crc_mode, h1, h2, eq_comm]

theorem bl_countChange (s : FollowPathAndAggro) (b : BlessState) (w : World)
    (pts : List Pt) : countChangeTarget (blessingLoop s b w pts).2.2 = 0 := by
  obtain ⟨st, b2, eff, heq, hc, _⟩ := blessingLoop_eq s b w pts
  rw [heq]
  exact hc

theorem bl_countMove (s : FollowPathAndAggro) (b : BlessState) (w : World)
    (pts : List Pt) : countPlayerMove (blessingLoop s b w pts).2.2 = 0 := by
  obtain ⟨st, b2, eff, heq, _, hm⟩ := blessingLoop_eq s b w pts
  rw [heq]
  exact hm

/-- `_advance_index_and_move` only rewrites the cursor fields, the movement
port and the status message. -/
theorem _advance_index_and_move_eq (s : FollowPathAndAggro) (w : World) :
    ∃ ph fh cp st ok eff, _advance_index_and_move s w =
      (ok, { s with path_handler := ph, follow_handler := fh, current_path_point := cp,
                    status_message := st }, eff) := by
  simp only [_advance_index_and_move]
  repeat' split
  all_goals exact ⟨_, _, _, _, _, _, rfl⟩

/-- `_advance_to_next_point` only rewrites the cursor fields, the movement
port, the status message and the forced index. -/
theorem _advance_to_next_point_eq (s : FollowPathAndAggro) (w : World) :
    ∃ ph fh cp st fi eff, _advance_to_next_point s w =
      ({ s with path_handler := ph, follow_handler := fh, current_path_point := cp,
                status_message := st, forced_index := fi }, eff) := by
  obtain ⟨ph, fh, cp, st, ok, eff, heq⟩ := _advance_index_and_move_eq s w
  simp only [_advance_to_next_point, heq]
  repeat' split
  all_goals exact ⟨_, _, _, _, _, _, rfl⟩

/-- A path-mode tick never touches the two command latches. -/
theorem pathTick_latches (s : FollowPathAndAggro) (w : World) :
    (pathTick s w).1.last_target_id = s.last_target_id
    ∧ (pathTick s w).1.last_move_target = s.last_move_target := by
  unfold pathTick
  rw [_throttled_scan_eq]
  cases htr : truthyId (scanResult s w) with
  | true =>
    simp only [htr, if_true]
    exact ⟨by simp, by simp⟩
  | false =>
    simp only [htr, Bool.false_eq_true, if_false]
    obtain ⟨ph, fh, cp, st, fi, eff, heq⟩ :=
      _advance_to_next_point_eq (scanStateAfter s w) w
    rw [heq]
    exact ⟨by simp, by simp⟩

/-- A combat tick either leaves both command latches untouched (every exit
branch) or keeps the mode it entered with (the command branch). -/
theorem combatTick_latches_or (s : FollowPathAndAggro) (w : World) :
    ((combatTick s w).1.last_target_id = s.last_target_id
      ∧ (combatTick s w).1.last_move_target = s.last_move_target)
    ∨ (combatTick s w).1.mode = s.mode := by
  simp only [combatTick]
  rw [_throttled_scan_eq]
  repeat' split
  all_goals solve
    | (left; constructor <;> simp)
    | (right; simp)

/-- **C2** (No duplicate combat commands): over two consecutive combat-mode
ticks that select the same truthy, alive target `t` whose integer-rounded
position is unchanged, the controller issues at most one set-target and at
most one move command in total, and the second tick — target id and rounded
destination unchanged — issues none of either. -/
theorem no_duplicate_combat_commands (s : FollowPathAndAggro) (b : BlessState)
    (w1 w2 : World) (t : Nat)
    (hl1 : w1.inLooting = false) (hl2 : w2.inLooting = false)
    (hm : s.mode = Mode.combat)
    (halive1 : (truthyId s.current_target_enemy
        && aliveOf w1 s.current_target_enemy) = true)
    (hscan1 : scanResult s w1 = some t) (ht : ¬ t = 0)
    (hok1 : w1.agentPosOk t = true)
    (halive2 : w2.agentAlive t = true)
    (hscan2 : scanResult (update s b w1).1 w2 = some t)
    (hok2 : w2.agentPosOk t = true)
    (hpos1 : pyInt (w2.agentPos t).1 = pyInt (w1.agentPos t).1)
    (hpos2 : pyInt (w2.agentPos t).2 = pyInt (w1.agentPos t).2) :
    countChangeTarget ((update s b w1).2.2
        ++ (update (update s b w1).1 (update s b w1).2.1 w2).2.2) ≤ 1
    ∧ countPlayerMove ((update s b w1).2.2
        ++ (update (update s b w1).1 (update s b w1).2.1 w2).2.2) ≤ 1
    ∧ countChangeTarget (update (update s b w1).1 (update s b w1).2.1 w2).2.2 = 0
    ∧ countPlayerMove (update (update s b w1).1 (update s b w1).2.1 w2).2.2 = 0 := by
  rw [update_mode_combat s b w1 hl1 hm] at hscan2 ⊢
  have halive1' : (truthyId (blessingLoop (_maybe_log_stats s w1) b w1
        b.points).1.current_target_enemy
      && aliveOf w1 (blessingLoop (_maybe_log_stats s w1) b w1
        b.points).1.current_target_enemy) = true := by
    simpa using halive1
  have hscan1' : scanResult (blessingLoop (_maybe_log_stats s w1) b w1 b.points).1 w1
      = some t :=
    (scanResult_congr _ s w1 (by simp) (by simp) (by simp) (by simp) (by simp)
      (by simp)).trans hscan1
  obtain ⟨hmode1, hcur1, hlt1, hlm1, hcc1, hcm1⟩ :=
    combatTick_commands (blessingLoop (_maybe_log_stats s w1) b w1 b.points).1 w1 t
      halive1' hscan1' ht hok1
  have hm2 : (combatTick (blessingLoop (_maybe_log_stats s w1) b w1 b.points).1
      w1).1.mode = Mode.combat := by
    rw [hmode1]
    simp [hm]
  rw [update_mode_combat _ _ w2 hl2 hm2]
  have halive2' : (truthyId (blessingLoop
        (_maybe_log_stats (combatTick (blessingLoop (_maybe_log_stats s w1) b w1
          b.points).1 w1).1 w2)
        (blessingLoop (_maybe_log_stats s w1) b w1 b.points).2.1 w2
        (blessingLoop (_maybe_log_stats s w1) b w1 b.points).2.1.points).1.current_target_enemy
      && aliveOf w2 (blessingLoop
        (_maybe_log_stats (combatTick (blessingLoop (_maybe_log_stats s w1) b w1
          b.points).1 w1).1 w2)
        (blessingLoop (_maybe_log_stats s w1) b w1 b.points).2.1 w2
        (blessingLoop (_maybe_log_stats s w1) b w1 b.points).2.1.points).1.current_target_enemy)
      = true := by
    simp [hcur1, truthyId, aliveOf, halive2, ht]
  have hscan2' : scanResult (blessingLoop
        (_maybe_log_stats (combatTick (blessingLoop (_maybe_log_stats s w1) b w1
          b.points).1 w1).1 w2)
        (blessingLoop (_maybe_log_stats s w1) b w1 b.points).2.1 w2
        (blessingLoop (_maybe_log_stats s w1) b w1 b.points).2.1.points).1 w2
      = some t :=
    (scanResult_congr _ _ w2 (by simp) (by simp) (by simp) (by simp) (by simp)
      (by simp)).trans hscan2
  obtain ⟨hmode2, hcur2, hlt2, hlm2, hcc2, hcm2⟩ :=
    combatTick_commands _ w2 t halive2' hscan2' ht hok2
  have hz1 : countChangeTarget (combatTick (blessingLoop
      (_maybe_log_stats (combatTick (blessingLoop (_maybe_log_stats s w1) b w1
        b.points).1 w1).1 w2)
      (blessingLoop (_maybe_log_stats s w1) b w1 b.points).2.1 w2
      (blessingLoop (_maybe_log_stats s w1) b w1 b.points).2.1.points).1 w2).2 = 0 := by
    rw [hcc2]
    simp [hlt1]
  have hz2 : countPlayerMove (combatTick (blessingLoop
      (_maybe_log_stats (combatTick (blessingLoop (_maybe_log_stats s w1) b w1
        b.points).1 w1).1 w2)
      (blessingLoop (_maybe_log_stats s w1) b w1 b.points).2.1 w2
      (blessingLoop (_maybe_log_stats s w1) b w1 b.points).2.1.points).1 w2).2 = 0 := by
    rw [hcm2]
    simp [hlm1, hpos1, hpos2]
  have hb1 : countChangeTarget (combatTick (blessingLoop (_maybe_log_stats s w1) b w1
      b.points).1 w1).2 ≤ 1 := by
    rw [hcc1]
    split <;> omega
  have hb2 : countPlayerMove (combatTick (blessingLoop (_maybe_log_stats s w1) b w1
      b.points).1 w1).2 ≤ 1 := by
    rw [hcm1]
    split <;> omega
  simp only [countChangeTarget_append, countPlayerMove_append, bl_countChange,
    bl_countMove, hz1, hz2]
  refine ⟨by omega, by omega, trivial, trivial⟩

/-- Concrete world for the `no_duplicate_combat_commands` witness: one enemy
(id 5) alive at `(100, 200)`, player at the origin, waypoint far away. -/
def c2World : World :=
  ⟨(0, 0), [5], fun e => e == 5, fun _ => ((100 : ℚ), (200 : ℚ)), fun _ => true,
    1000, 10, false⟩

/-- Second tick of the `no_duplicate_combat_commands` witness: same world one
second later. -/
def c2World2 : World :=
  { c2World with now_ms := 2000, time_s := 20 }

/-- Concrete controller for the `no_duplicate_combat_commands` witness:
combat mode locked on enemy 5, no commands issued yet. -/
def c2State : FollowPathAndAggro :=
  { init ⟨[((9000 : ℚ), (9000 : ℚ))], some 0⟩ ⟨true, false⟩ 2500
      [((9000 : ℚ), (9000 : ℚ))] [] { c2World with now_ms := 0, time_s := 0 } with
    mode := Mode.combat,
    current_target_enemy := some 5 }

/-- Witness for `no_duplicate_combat_commands`: two combat ticks against the
stationary enemy 5 issue at most one target change and one move in total, and
the second tick issues none. -/
theorem no_duplicate_combat_commands_witness :
    countChangeTarget ((update c2State ⟨[], [], []⟩ c2World).2.2
        ++ (update (update c2State ⟨[], [], []⟩ c2World).1
              (update c2State ⟨[], [], []⟩ c2World).2.1 c2World2).2.2) ≤ 1
    ∧ countPlayerMove ((update c2State ⟨[], [], []⟩ c2World).2.2
        ++ (update (update c2State ⟨[], [], []⟩ c2World).1
              (update c2State ⟨[], [], []⟩ c2World).2.1 c2World2).2.2) ≤ 1
    ∧ countChangeTarget (update (update c2State ⟨[], [], []⟩ c2World).1
          (update c2State ⟨[], [], []⟩ c2World).2.1 c2World2).2.2 = 0
    ∧ countPlayerMove (update (update c2State ⟨[], [], []⟩ c2World).1
          (update c2State ⟨[], [], []⟩ c2World).2.1 c2World2).2.2 = 0 :=
  no_duplicate_combat_commands c2State ⟨[], [], []⟩ c2World c2World2 5
    (by with_unfolding_all decide) (by with_unfolding_all decide)
    (by with_unfolding_all decide) (by with_unfolding_all decide)
    (by with_unfolding_all decide) (by decide)
    (by with_unfolding_all decide) (by with_unfolding_all decide)
    (by with_unfolding_all decide) (by with_unfolding_all decide)
    (by with_unfolding_all decide) (by with_unfolding_all decide)

/-- Controller for the `target_latch_persistence` witness: the combat
controller of the two-tick scenario with both latches already recording
enemy 5 at `(100, 200)`. -/
def c10State : FollowPathAndAggro :=
  { c2State with last_target_id := some 5, last_move_target := some (100, 200) }

/-- **C10** (Implicit target-latch persistence): a non-looting tick that ends
in Path mode — in particular every combat exit: target dead, throttled scan
returning none or id 0, or position fetch failure — leaves `last_target_id`
and `last_move_target` exactly as they were; and a combat tick re-engaging a
truthy alive target `t` at the same integer-rounded position the latches
already record issues no set-target and no move command. -/
theorem target_latch_persistence (s : FollowPathAndAggro) (b : BlessState)
    (w : World) (t : Nat) (hl : w.inLooting = false) :
    ((update s b w).1.mode = Mode.path →
      (update s b w).1.last_target_id = s.last_target_id
      ∧ (update s b w).1.last_move_target = s.last_move_target)
    ∧ (s.mode = Mode.combat →
      (truthyId s.current_target_enemy && aliveOf w s.current_target_enemy) = true →
      scanResult s w = some t → ¬ t = 0 → w.agentPosOk t = true →
      s.last_target_id = some t →
      s.last_move_target = some (pyInt (w.agentPos t).1, pyInt (w.agentPos t).2) →
      countChangeTarget (update s b w).2.2 = 0
      ∧ countPlayerMove (update s b w).2.2 = 0) := by
  constructor
  · intro hpost
    cases hm : s.mode with
    | path =>
      rw [update_mode_path s b w hl hm]
      obtain ⟨q1, q2⟩ :=
        pathTick_latches (blessingLoop (_maybe_log_stats s w) b w b.points).1 w
      exact ⟨by simpa using q1, by simpa using q2⟩
    | combat =>
      have hpost2 : (combatTick (blessingLoop (_maybe_log_stats s w) b w
          b.points).1 w).1.mode = Mode.path := by
        rw [update_mode_combat s b w hl hm] at hpost
        simpa using hpost
      rcases combatTick_latches_or
          (blessingLoop (_maybe_log_stats s w) b w b.points).1 w with h | h
      · have e1 : (blessingLoop (_maybe_log_stats s w) b w b.points).1.last_target_id
            = s.last_target_id := by simp
        have e2 : (blessingLoop (_maybe_log_stats s w) b w b.points).1.last_move_target
            = s.last_move_target := by simp
        rw [update_mode_combat s b w hl hm]
        exact ⟨by simpa using h.1.trans e1, by simpa using h.2.trans e2⟩
      · rw [h] at hpost2
        simp [hm] at hpost2
  · intro hm halive hscan ht hok hlt hlm
    have halive2 : (truthyId (blessingLoop (_maybe_log_stats s w) b w
          b.points).1.current_target_enemy
        && aliveOf w (blessingLoop (_maybe_log_stats s w) b w
          b.points).1.current_target_enemy) = true := by
      simpa using halive
    have hscan2 : scanResult (blessingLoop (_maybe_log_stats s w) b w b.points).1 w
        = some t :=
      (scanResult_congr _ s w (by simp) (by simp) (by simp) (by simp) (by simp)
        (by simp)).trans hscan
    obtain ⟨_, _, _, _, hcc, hcm⟩ :=
      combatTick_commands (blessingLoop (_maybe_log_stats s w) b w b.points).1 w t
        halive2 hscan2 ht hok
    rw [update_mode_combat s b w hl hm]
    constructor
    · simp only [countChangeTarget_append, bl_countChange, hcc]
      simp [hlt]
    · simp only [countPlayerMove_append, bl_countMove, hcm]
      simp [hlm]

/-- Witness for `target_latch_persistence`: re-engaging enemy 5 at the latched
rounded position `(100, 200)` issues no commands at all. -/
theorem target_latch_persistence_witness :
    countChangeTarget (update c10State ⟨[], [], []⟩ c2World).2.2 = 0
    ∧ countPlayerMove (update c10State ⟨[], [], []⟩ c2World).2.2 = 0 :=
  (target_latch_persistence c10State ⟨[], [], []⟩ c2World 5
      (by with_unfolding_all decide)).2
    (by with_unfolding_all decide) (by with_unfolding_all decide)
    (by with_unfolding_all decide) (by decide) (by with_unfolding_all decide)
    (by with_unfolding_all decide) (by with_unfolding_all decide)

/-- Concrete world for the `fluid_advance_before_arrival` witness: player at
the origin, no enemies, not looting. -/
def c3World : World :=
  ⟨(0, 0), [], fun _ => false, fun _ => (0, 0), fun _ => true, 10000, 10, false⟩

/-- Concrete controller for the `fluid_advance_before_arrival` witness: three
waypoints, the port following toward waypoint 1 at `(300, 0)`. -/
def c3State : FollowPathAndAggro :=
  { init ⟨[], some 1⟩ ⟨true, false⟩ 2500 [((0 : ℚ), (0 : ℚ)), (300, 0), (600, 0)] []
      c3World with
    current_path_point := some (300, 0) }

/-- Witness for `fluid_advance_before_arrival`: at distance 300 the tick flows
to waypoint 2 and commands movement there. -/
theorem fluid_advance_before_arrival_witness :
    (update c3State ⟨[], [], []⟩ c3World).1.path_handler.index = some (1 + 1)
    ∧ (update c3State ⟨[], [], []⟩ c3World).1.current_path_point
        = some (pyIdx c3State.external_waypoints (1 + 1))
    ∧ Effect.moveToWaypoint (pyIdx c3State.external_waypoints (1 + 1))
        ∈ (update c3State ⟨[], [], []⟩ c3World).2.2 :=
  fluid_advance_before_arrival c3State ⟨[], [], []⟩ c3World (300, 0) 1
    (by with_unfolding_all decide) (by with_unfolding_all decide)
    (by with_unfolding_all decide) (by with_unfolding_all decide)
    (by with_unfolding_all decide) (by with_unfolding_all decide)
    (by with_unfolding_all decide) (by with_unfolding_all decide)
    (by with_unfolding_all decide) (by with_unfolding_all decide)
    (by norm_num [c3World, distSq]) (by with_unfolding_all decide)

/-- Worlds for the sticky-hold scenario: player at `(100, 0)`, every agent at
`(100, 0)`, the hostile list and its liveness varying per tick, never
looting. -/
def c7w (ms : Nat) (es : List Nat) (al : Bool) : World :=
  ⟨((100 : ℚ), (0 : ℚ)), es, fun _ => al, fun _ => ((100 : ℚ), (0 : ℚ)),
    fun _ => true, ms, (ms : ℚ) / 1000, false⟩

/-- Three collinear waypoints for the sticky-hold scenario. -/
def c7wps : List Pt := [((0 : ℚ), (0 : ℚ)), (100, 0), (200, 0)]

/-- The controller as constructed, waypoints `c7wps`. -/
def c7s0 : FollowPathAndAggro :=
  init ⟨c7wps, none⟩ ⟨false, false⟩ 2500 c7wps [] (c7w 0 [] false)

/-- The controller right after `force_move_to_index(1, sticky=True)`. -/
def c7s1 : FollowPathAndAggro := (force_move_to_index c7s0 1 true).2.1

/-- Six ordinary ticks after the sticky force, with no `release_hold()`:
combat against hostile 7, its death, a quiet tick, then combat against
hostile 8. -/
def c7run : FollowPathAndAggro :=
  let b : BlessState := ⟨[], [], []⟩
  let r1 := update c7s1 b (c7w 1000 [7] true)
  let r2 := update r1.1 r1.2.1 (c7w 2000 [7] true)
  let r3 := update r2.1 r2.2.1 (c7w 3000 [7] false)
  let r4 := update r3.1 r3.2.1 (c7w 4000 [] false)
  let r5 := update r4.1 r4.2.1 (c7w 5000 [8] true)
  let r6 := update r5.1 r5.2.1 (c7w 6000 [8] true)
  r6.1

/-- **C7** counterexample: after `force_move_to_index(1, sticky=True)` and six
ordinary ticks with `release_hold()` never called, hold is still on, yet the
waypoint-reach block of the combat branch (`_advance_index_only`, which never
consults `_debug_hold`) has auto-advanced the cursor: `get_current_index()`
reports 2, not 1. -/
theorem sticky_hold_counterexample :
    c7s1.debug_hold = true ∧ c7s1.forced_index = some 1
    ∧ c7run.debug_hold = true
    ∧ c7run.path_handler.index = some 2
    ∧ ¬ get_current_index c7run (c7w 6000 [8] true) = some 1 := by
  with_unfolding_all decide

/-- **C7** (Sticky hold, amended to Path-mode ticks):
`force_move_to_index(1, sticky=True)` pins the cursor — hold on, handler index
1, forced index 1 — and every non-looting tick that begins in Path mode with
the cursor pinned keeps `get_current_index()` at 1 and performs no automatic
advancement: hold stays on, the handler index stays 1, the forced index stays
absent or 1, and the waypoint list is unchanged.  (Combat-mode ticks can
advance the cursor despite the hold; see the counterexample.) -/
theorem sticky_hold_path_mode (s : FollowPathAndAggro) (b : BlessState) (w : World)
    (hloot : w.inLooting = false)
    (hh : s.debug_hold = true) (hi : s.path_handler.index = some 1)
    (hf : s.forced_index = none ∨ s.forced_index = some 1)
    (hm : s.mode = Mode.path) (hw : 2 ≤ (get_waypoints s).length) :
    get_current_index s w = some 1
    ∧ (update s b w).1.debug_hold = true
    ∧ (update s b w).1.path_handler.index = some 1
    ∧ ((update s b w).1.forced_index = none ∨ (update s b w).1.forced_index = some 1)
    ∧ get_waypoints (update s b w).1 = get_waypoints s
    ∧ (force_move_to_index s 1 true).2.1.debug_hold = true
    ∧ (force_move_to_index s 1 true).2.1.path_handler.index = some 1
    ∧ (force_move_to_index s 1 true).2.1.forced_index = some 1 := by
  have hne : ¬ get_waypoints s = [] := by
    intro h0
    rw [h0] at hw
    simp at hw
  have hcur : get_current_index s w = some 1 := by
    rcases hf with h | h
    · exact get_current_index_handler s w 1 h hi
    · simp only [get_current_index, h]
      have h1 : _clamp 1 0 (max 0 (((get_waypoints s).length : Int) - 1)) = 1 := by
        simp only [_clamp]
        omega
      rw [h1]
  have hMh : (blessingLoop (_maybe_log_stats s w) b w b.points).1.debug_hold
      = true := by simp [hh]
  have hMi : (blessingLoop (_maybe_log_stats s w) b w b.points).1.path_handler.index
      = some 1 := by simp [hi]
  have hMf : (blessingLoop (_maybe_log_stats s w) b w b.points).1.forced_index = none
      ∨ (blessingLoop (_maybe_log_stats s w) b w b.points).1.forced_index = some 1 := by
    rcases hf with h | h
    · exact Or.inl (by simp [h])
    · exact Or.inr (by simp [h])
  have hMW : get_waypoints (blessingLoop (_maybe_log_stats s w) b w b.points).1
      = get_waypoints s :=
    get_waypoints_congr _ _ (by simp) (by simp) (by simp)
  have hMw : 2 ≤ (get_waypoints (blessingLoop (_maybe_log_stats s w) b w b.points).1).length := by
    rw [hMW]
    exact hw
  obtain ⟨p1, p2, p3, p4⟩ := pathTick_hold _ w hMh hMi hMf hMw
  have hidx1 : _clamp 1 0 (((get_waypoints s).length : Int) - 1) = 1 := by
    simp only [_clamp]
    omega
  rw [update_mode_path s b w hloot hm]
  refine ⟨hcur, by simpa using p1, by simpa using p2, ?_, ?_, ?_, ?_, ?_⟩
  · rcases p3 with h | h
    · exact Or.inl (by simpa using h)
    · exact Or.inr (by simpa using h)
  · exact (get_waypoints_congr _ _ (by simp) (by simp) (by simp)).trans (p4.trans hMW)
  · simp only [force_move_to_index, if_neg hne, enable_hold, if_true]
  · simp only [force_move_to_index, if_neg hne, enable_hold, if_true]
    rw [hidx1]
  · simp only [force_move_to_index, if_neg hne, enable_hold, if_true]
    rw [hidx1]

/-- Witness for `sticky_hold_path_mode`: the concrete pinned controller
`c7s1` and a quiet path tick. -/
theorem sticky_hold_path_mode_witness :
    get_current_index c7s1 (c7w 1000 [] false) = some 1
    ∧ (update c7s1 ⟨[], [], []⟩ (c7w 1000 [] false)).1.debug_hold = true
    ∧ (update c7s1 ⟨[], [], []⟩ (c7w 1000 [] false)).1.path_handler.index = some 1
    ∧ ((update c7s1 ⟨[], [], []⟩ (c7w 1000 [] false)).1.forced_index = none
        ∨ (update c7s1 ⟨[], [], []⟩ (c7w 1000 [] false)).1.forced_index = some 1)
    ∧ get_waypoints (update c7s1 ⟨[], [], []⟩ (c7w 1000 [] false)).1 = get_waypoints c7s1
    ∧ (force_move_to_index c7s1 1 true).2.1.debug_hold = true
    ∧ (force_move_to_index c7s1 1 true).2.1.path_handler.index = some 1
    ∧ (force_move_to_index c7s1 1 true).2.1.forced_index = some 1 :=
  sticky_hold_path_mode c7s1 ⟨[], [], []⟩ (c7w 1000 [] false)
    (by with_unfolding_all decide) (by with_unfolding_all decide)
    (by with_unfolding_all decide)
    (Or.inr (by with_unfolding_all decide)) (by with_unfolding_all decide)
    (by with_unfolding_all decide)

/-- **C5** (Nearest-enemy selection): when the query fires, its answer equals
the first entity of the alive-and-in-range filtered array whose (squared)
distance to the player is minimal over that array — i.e. the nearest, ties
broken by reported array order — and is `None` exactly when that filtered
array is empty. -/
theorem nearest_enemy_selection (s : FollowPathAndAggro) (w : World) :
    ((_find_nearest_enemy s w).1 =
      (aggroFilter s w).find? (fun e => (aggroFilter s w).all
        (fun e2 => decide (distSq w.playerPos (w.agentPos e) ≤ distSq w.playerPos (w.agentPos e2)))))
    ∧ ((_find_nearest_enemy s w).1 = none ↔ aggroFilter s w = []) := by
  have hfilter : aggroFilter
      { s with enemy_array_fetches := s.enemy_array_fetches + 1 } w = aggroFilter s w := rfl
  have hhead : (_find_nearest_enemy s w).1 =
      (sortByKey (fun e => distSq w.playerPos (w.agentPos e)) (aggroFilter s w)).head? := by
    simp only [_find_nearest_enemy, hfilter]
    cases sortByKey (fun e => distSq w.playerPos (w.agentPos e)) (aggroFilter s w) with
    | nil => rfl
    | cons e rest => rfl
  rw [hhead, sortByKey_head?]
  constructor
  · exact firstMin_eq_find? _ _
  · exact firstMin_eq_none_iff _ _

end FollowPathAndAggro

end PyQuish
